import Mathlib

/-!
# Looking Glass host, D12 desktop-duplication backend

A shallow embedding of `host/platform/Windows/capture/D12/backend/dd.c` and of
the row-copy primitive of `common/include/common/rects.h`.

Conventions of the embedding:

* the global `this` becomes an explicit `DDInstance` value passed in and out;
* COM objects are identified by the numeric value of their pointer (`Nat`, `0`
  is `NULL`); a pointer into `this->cache` is the index of the slot;
* every answer of a native collaborator (a `HRESULT`, a texture description, a
  frame info block) is an explicit input of the function that asks for it;
* the calls made to collaborators are appended, in order, to the ghost field
  `DDInstance.calls`, so that "is called", "is not called" and "is called
  once" can be stated.
-/

namespace LookingGlass

/-! ## Native scalar types and status codes -/

/-- Windows `HRESULT`, a signed 32-bit status. -/
abbrev HRESULT := Int

/-- Windows SDK: `S_OK`. -/
def S_OK : HRESULT := 0

/-- Windows SDK: `WAIT_ABANDONED` (`0x00000080L`). -/
def WAIT_ABANDONED : HRESULT := 0x80

/-- Windows SDK: `DXGI_ERROR_MORE_DATA` (`0x887A0003` as a signed 32-bit value). -/
def DXGI_ERROR_MORE_DATA : HRESULT := 0x887A0003 - 0x100000000

/-- Windows SDK: `DXGI_ERROR_ACCESS_LOST` (`0x887A0026` as a signed 32-bit value). -/
def DXGI_ERROR_ACCESS_LOST : HRESULT := 0x887A0026 - 0x100000000

/-- Windows SDK: `DXGI_ERROR_WAIT_TIMEOUT` (`0x887A0027` as a signed 32-bit value). -/
def DXGI_ERROR_WAIT_TIMEOUT : HRESULT := 0x887A0027 - 0x100000000

/-- Windows SDK macro `FAILED(hr)`: the status is negative. -/
def FAILED (hr : HRESULT) : Bool := decide (hr < 0)

/-- The capture interface's `CaptureResult` enumeration. -/
inductive CaptureResult
  | CAPTURE_RESULT_OK
  | CAPTURE_RESULT_REINIT
  | CAPTURE_RESULT_TIMEOUT
  | CAPTURE_RESULT_ERROR
  deriving DecidableEq, Repr

open CaptureResult

/-- `d12_dd_hResultToCaptureResult` (dd.c 278-295): the `switch` over the status. -/
def d12_dd_hResultToCaptureResult (status : HRESULT) : CaptureResult :=
  if status = S_OK then CAPTURE_RESULT_OK
  else if status = DXGI_ERROR_WAIT_TIMEOUT then CAPTURE_RESULT_TIMEOUT
  else if status = WAIT_ABANDONED ∨ status = DXGI_ERROR_ACCESS_LOST then CAPTURE_RESULT_REINIT
  else CAPTURE_RESULT_ERROR

/-! ## The resource cache -/

/-- `#define CACHE_SIZE 10`. -/
abbrev CACHE_SIZE : Nat := 10

/-- Direct3D `D3D11_TEXTURE2D_DESC`; dd.c reads `Width`, `Height` and `Format`
and copies the block as a whole. -/
structure D3D11_TEXTURE2D_DESC where
  Width : Nat
  Height : Nat
  MipLevels : Nat
  ArraySize : Nat
  Format : Nat
  SampleCount : Nat
  SampleQuality : Nat
  Usage : Nat
  BindFlags : Nat
  CPUAccessFlags : Nat
  MiscFlags : Nat
  deriving DecidableEq, Repr

/-- A source surface `ID3D11Texture2D *`: the pointer value and what
`ID3D11Texture2D_GetDesc` answers for it. -/
structure ID3D11Texture2D where
  ptr : Nat
  desc : D3D11_TEXTURE2D_DESC
  deriving DecidableEq, Repr

/-- `struct DDCacheInfo` (dd.c 20-30). The four COM references hold the value of
the pointer they refer to. `fenceValue` is a `UINT64`. -/
structure DDCacheInfo where
  format : D3D11_TEXTURE2D_DESC
  srcTex : Nat
  d12Res : Nat
  fence : Nat
  d12Fence : Nat
  fenceValue : Nat
  ready : Bool
  deriving DecidableEq, Repr

/-- `DXGI_OUTDUPL_POINTER_POSITION`: `POINT Position` and `BOOL Visible`
(a C `int`, non-zero meaning true). -/
structure DXGI_OUTDUPL_POINTER_POSITION where
  x : Int
  y : Int
  Visible : Int
  deriving DecidableEq, Repr

/-- The capture interface's pointer shape formats. -/
inductive CaptureFormat
  /-- The enumeration's first constant (value 0), what `CapturePointer pointer = {0}` holds. -/
  | CAPTURE_FMT_BGRA
  | CAPTURE_FMT_COLOR
  | CAPTURE_FMT_MONO
  | CAPTURE_FMT_MASKED
  deriving DecidableEq, Repr

/-- The capture interface's `CapturePointer` event record. -/
structure CapturePointer where
  positionUpdate : Bool
  x : Int
  y : Int
  visible : Bool
  shapeUpdate : Bool
  format : CaptureFormat
  hx : Int
  hy : Int
  width : Nat
  height : Nat
  pitch : Nat
  deriving DecidableEq, Repr

/-- One call made to a collaborator, as recorded in `DDInstance.calls`. -/
inductive Call
  /-- `IDXGIOutputDuplication_ReleaseFrame(*this->dup)`. -/
  | releaseFrame
  /-- `ID3D11Device5_GetDeviceRemovedReason(*this->device)`. -/
  | removedReason
  /-- `d12_dd_convertResource(srcTex, &this->cache[slot])` and what it returned. -/
  | convertResource (srcTex : Nat) (slot : Fin CACHE_SIZE) (ok : Bool)
  /-- `ID3D11DeviceContext4_Signal(*this->context, fence, value)`. -/
  | signal (fence : Nat) (value : Nat)
  /-- `d12_updatePointer(&pointer, this->shapeBuffer, this->shapeBufferSize)`. -/
  | updatePointer (pointer : CapturePointer) (shapeBufferSize : Nat)
  /-- `ID3D12CommandQueue_Wait(commandQueue, d12Fence, value)`. -/
  | queueWait (d12Fence : Nat) (value : Nat)
  deriving DecidableEq, Repr

/-- `struct DDInstance` (dd.c 32-52), restricted to the fields the capture logic
reads: the COM scope, the desktop handle and the device, context and
duplication references are opaque handles and are left out. `shapeBuffer`
records whether the pointer is non-`NULL`. `calls` is the ghost call record. -/
structure DDInstance where
  release : Bool
  cache : Fin CACHE_SIZE → DDCacheInfo
  current : Option (Fin CACHE_SIZE)
  lastPosValid : Bool
  lastPos : DXGI_OUTDUPL_POINTER_POSITION
  shapeBuffer : Bool
  shapeBufferSize : Nat
  calls : List Call

/-- The status codes and objects the native calls of `d12_dd_convertResource`
answer, in call order. -/
structure ImportOutcome where
  queryInterface : HRESULT
  createSharedHandle : HRESULT
  openResource : HRESULT
  dst : Nat
  createFence : HRESULT
  fence : Nat
  fenceSharedHandle : HRESULT
  openFence : HRESULT
  d12Fence : Nat
  deriving DecidableEq, Repr

/-- `d12_dd_convertResource` (dd.c 608-698): every failing native call leaves
through `exit` with the entry untouched; when all succeed the details are
stored, `fenceValue` is reset to zero and the entry is marked ready. -/
def d12_dd_convertResource (o : ImportOutcome) (srcTex : ID3D11Texture2D)
    (cache : DDCacheInfo) : Bool × DDCacheInfo :=
  if FAILED o.queryInterface then (false, cache)
  else if FAILED o.createSharedHandle then (false, cache)
  else if FAILED o.openResource then (false, cache)
  else if FAILED o.createFence then (false, cache)
  else if FAILED o.fenceSharedHandle then (false, cache)
  else if FAILED o.openFence then (false, cache)
  else
    (true,
      { format := srcTex.desc
        srcTex := srcTex.ptr
        d12Res := o.dst
        fence := o.fence
        d12Fence := o.d12Fence
        fenceValue := 0
        ready := true })

/-- How the `for` loop of `d12_dd_getCache` is left. -/
inductive ScanExit
  /-- `*result = cache; return true;` inside the loop. -/
  | hit (i : Fin CACHE_SIZE)
  /-- The loop ended, by `break` or by `i` reaching `CACHE_SIZE`. -/
  | done (cache : Fin CACHE_SIZE → DDCacheInfo) (freeSlot : Nat)

/-- The `for (unsigned i = 0; i < CACHE_SIZE; ++i)` loop of `d12_dd_getCache`
(dd.c 566-593), from index `i` with the current `freeSlot`; `n` bounds the
remaining iterations and is `CACHE_SIZE` at entry. -/
def getCacheLoop (srcTex : ID3D11Texture2D) (cache : Fin CACHE_SIZE → DDCacheInfo) :
    (n : Nat) → (i : Nat) → (freeSlot : Nat) → ScanExit
  | 0, _, freeSlot => ScanExit.done cache freeSlot
  | n + 1, i, freeSlot =>
    if h : i < CACHE_SIZE then
      let c := cache ⟨i, h⟩
      if c.ready = false then
        getCacheLoop srcTex cache n (i + 1) (min freeSlot i)
      else if c.srcTex ≠ srcTex.ptr then
        getCacheLoop srcTex cache n (i + 1) freeSlot
      else if c.format.Width ≠ srcTex.desc.Width ∨
          c.format.Height ≠ srcTex.desc.Height ∨
          c.format.Format ≠ srcTex.desc.Format then
        ScanExit.done (Function.update cache ⟨i, h⟩ { c with ready := false }) i
      else
        ScanExit.hit ⟨i, h⟩
    else
      ScanExit.done cache freeSlot

/-- `d12_dd_getCache` (dd.c 559-606). The result triple is the returned `bool`,
the value left in `*result`, and the instance afterwards. The last `else` is
the C array access with an index that is neither `CACHE_SIZE` nor below it,
which the loop never produces. -/
def d12_dd_getCache (o : ImportOutcome) (srcTex : ID3D11Texture2D) (this : DDInstance) :
    Bool × Option (Fin CACHE_SIZE) × DDInstance :=
  match getCacheLoop srcTex this.cache CACHE_SIZE 0 CACHE_SIZE with
  | ScanExit.hit i => (true, some i, this)
  | ScanExit.done cache freeSlot =>
    if freeSlot = CACHE_SIZE then (false, none, { this with cache := cache })
    else if h : freeSlot < CACHE_SIZE then
      let r := d12_dd_convertResource o srcTex (cache ⟨freeSlot, h⟩)
      let this1 : DDInstance :=
        { this with
          cache := Function.update cache ⟨freeSlot, h⟩ r.2
          calls := this.calls ++ [Call.convertResource srcTex.ptr ⟨freeSlot, h⟩ r.1] }
      if r.1 = false then (false, none, this1)
      else (true, some ⟨freeSlot, h⟩, this1)
    else (false, none, { this with cache := cache })

/-- Number of `d12_dd_convertResource` calls in a call record. -/
def countImports (calls : List Call) : Nat :=
  calls.countP (fun c => match c with
    | Call.convertResource _ _ _ => true
    | _ => false)


/-! ## The pointer tracker -/

/-- `CapturePointer pointer = {0};` -/
def zeroPointer : CapturePointer :=
  { positionUpdate := false, x := 0, y := 0, visible := false, shapeUpdate := false,
    format := CaptureFormat.CAPTURE_FMT_BGRA, hx := 0, hy := 0, width := 0, height := 0,
    pitch := 0 }

/-- `d12_dd_handlePointerMovement` (dd.c 450-489). `pointer` and `changed` are
the in/out parameters; the result is the instance, `*pointer` and `*changed`
afterwards. -/
def d12_dd_handlePointerMovement (pos : DXGI_OUTDUPL_POINTER_POSITION)
    (pointer : CapturePointer) (changed : Bool) (this : DDInstance) :
    DDInstance × CapturePointer × Bool :=
  let sc : Bool × Bool :=
    if this.lastPosValid = true then
      (decide (pos.Visible ≠ 0 ∧ (pos.x ≠ this.lastPos.x ∨ pos.y ≠ this.lastPos.y)),
        if pos.Visible ≠ this.lastPos.Visible then true else changed)
    else
      (decide (pos.Visible ≠ 0), true)
  let setPos := sc.1
  let changed := sc.2
  let pointer := { pointer with visible := decide (pos.Visible ≠ 0) }
  let pc : CapturePointer × Bool :=
    if setPos = true then
      ({ pointer with positionUpdate := true, x := pos.x, y := pos.y }, true)
    else
      (pointer, changed)
  ({ this with lastPos := pos, lastPosValid := true }, pc.1, pc.2)

/-- `DXGI_OUTDUPL_POINTER_SHAPE_INFO`; `ShapeType` is the C field `Type`. -/
structure DXGI_OUTDUPL_POINTER_SHAPE_INFO where
  ShapeType : Nat
  Width : Nat
  Height : Nat
  Pitch : Nat
  HotSpotX : Int
  HotSpotY : Int
  deriving DecidableEq, Repr

/-- Windows SDK: `DXGI_OUTDUPL_POINTER_SHAPE_TYPE_MONOCHROME`. -/
def DXGI_OUTDUPL_POINTER_SHAPE_TYPE_MONOCHROME : Nat := 1

/-- Windows SDK: `DXGI_OUTDUPL_POINTER_SHAPE_TYPE_COLOR`. -/
def DXGI_OUTDUPL_POINTER_SHAPE_TYPE_COLOR : Nat := 2

/-- Windows SDK: `DXGI_OUTDUPL_POINTER_SHAPE_TYPE_MASKED_COLOR`. -/
def DXGI_OUTDUPL_POINTER_SHAPE_TYPE_MASKED_COLOR : Nat := 4

/-- What the environment answers during one pass through the `retry:` label of
`d12_dd_handlePointerShape`: whether `malloc` succeeds (asked only when the
buffer must grow), and the status, required size `s` and `info` that
`IDXGIOutputDuplication_GetFramePointerShape` writes. -/
structure ShapeQuery where
  malloc : Bool
  hr : HRESULT
  s : Nat
  info : DXGI_OUTDUPL_POINTER_SHAPE_INFO
  deriving DecidableEq, Repr

/-- `d12_dd_handlePointerShape` (dd.c 491-557). Each pass through `retry:`
consumes one `ShapeQuery`; `none` means the supplied answers ran out while the
source kept answering `DXGI_ERROR_MORE_DATA`. `size` is a `size_t` and
`this->shapeBufferSize` a 32-bit `unsigned`, so the assignment
`this->shapeBufferSize = size` keeps the size modulo 2^32. -/
def d12_dd_handlePointerShape :
    List ShapeQuery → CapturePointer → Nat → Bool → DDInstance →
      Option (DDInstance × CapturePointer × Bool)
  | [], _, _, _, _ => none
  | q :: qs, pointer, size, changed, this =>
    if this.shapeBufferSize < size ∧ q.malloc = false then
      some ({ this with shapeBuffer := false, shapeBufferSize := 0 }, pointer, changed)
    else
      let this1 : DDInstance :=
        if this.shapeBufferSize < size then
          { this with shapeBuffer := true, shapeBufferSize := size % 2 ^ 32 }
        else this
      if FAILED q.hr = true then
        if q.hr = DXGI_ERROR_MORE_DATA then
          d12_dd_handlePointerShape qs pointer q.s changed this1
        else
          some (this1, pointer, changed)
      else
        let fmt : Option CaptureFormat :=
          if q.info.ShapeType = DXGI_OUTDUPL_POINTER_SHAPE_TYPE_COLOR then
            some CaptureFormat.CAPTURE_FMT_COLOR
          else if q.info.ShapeType = DXGI_OUTDUPL_POINTER_SHAPE_TYPE_MASKED_COLOR then
            some CaptureFormat.CAPTURE_FMT_MASKED
          else if q.info.ShapeType = DXGI_OUTDUPL_POINTER_SHAPE_TYPE_MONOCHROME then
            some CaptureFormat.CAPTURE_FMT_MONO
          else none
        match fmt with
        | none => some (this1, pointer, changed)
        | some f =>
          some (this1,
            { pointer with
              format := f
              shapeUpdate := true
              width := q.info.Width
              height := q.info.Height
              pitch := q.info.Pitch
              hx := q.info.HotSpotX
              hy := q.info.HotSpotY },
            true)

/-! ## The capture session -/

/-- The acquired `IDXGIResource *`: what `IDXGIResource_QueryInterface` answers
for `IID_ID3D11Texture2D`, and the texture it yields. -/
structure IDXGIResource where
  queryInterface : HRESULT
  srcTex : ID3D11Texture2D
  deriving DecidableEq, Repr

/-- The fields of `DXGI_OUTDUPL_FRAME_INFO` that dd.c reads; the two times are
the `QuadPart` of a `LARGE_INTEGER`. -/
structure DXGI_OUTDUPL_FRAME_INFO where
  LastPresentTime : Int
  LastMouseUpdateTime : Int
  PointerPosition : DXGI_OUTDUPL_POINTER_POSITION
  PointerShapeBufferSize : Nat
  deriving DecidableEq, Repr

/-- Everything the environment answers during one pass through the `retry:`
label of `d12_dd_capture`: the status of `AcquireNextFrame` with the frame info
and resource it writes, the status of `GetDeviceRemovedReason`, the answers to
the import, and the answers to the pointer shape query. -/
structure AcquireOutcome where
  hr : HRESULT
  frameInfo : DXGI_OUTDUPL_FRAME_INFO
  res : IDXGIResource
  removedReason : HRESULT
  convert : ImportOutcome
  shape : List ShapeQuery
  deriving DecidableEq, Repr

/-- `d12_dd_handleFrameUpdate` (dd.c 418-448). `d12_dd_getCache` writes its
result into `this->current`; `++this->current->fenceValue` is a `UINT64`
increment. The `none` branch stands for the C dereference of a null `current`
after a true return, which `d12_dd_getCache` never produces. -/
def d12_dd_handleFrameUpdate (res : IDXGIResource) (o : ImportOutcome) (this : DDInstance) :
    Bool × DDInstance :=
  if FAILED res.queryInterface = true then (false, this)
  else
    let r := d12_dd_getCache o res.srcTex this
    let this1 : DDInstance := { r.2.2 with current := r.2.1 }
    if r.1 = false then (false, this1)
    else
      match this1.current with
      | none => (false, this1)
      | some i =>
        let c := this1.cache i
        let v := (c.fenceValue + 1) % 2 ^ 64
        (true,
          { this1 with
            cache := Function.update this1.cache i { c with fenceValue := v }
            calls := this1.calls ++ [Call.signal c.fence v] })

/-- How one pass of the body of `d12_dd_capture` ends. -/
inductive PassExit
  /-- Control reaches `exit:` with this `result`. -/
  | exit (result : CaptureResult) (this : DDInstance)
  /-- `goto retry`. -/
  | retry (this : DDInstance)

/-- The block at the `retry:` label (dd.c 307-311): a held frame is released. -/
def releaseHeldFrame (this : DDInstance) : DDInstance :=
  if this.release = true then
    { this with release := false, calls := this.calls ++ [Call.releaseFrame] }
  else this

/-- The pointer block of `d12_dd_capture` (dd.c 345-360): `postPointer`,
`postShape` and `pointer` start cleared, the movement handler runs when
`LastMouseUpdateTime` is set and writes `postPointer`, the shape handler runs
when `PointerShapeBufferSize > 0` and writes `postShape`, and
`d12_updatePointer` is called `if (postPointer)`. The result also reports
the final `pointer`, `postPointer` and `postShape`. -/
def pointerBlock (e : AcquireOutcome) (this : DDInstance) :
    Option (DDInstance × CapturePointer × Bool × Bool) :=
  let mv : DDInstance × CapturePointer × Bool :=
    if e.frameInfo.LastMouseUpdateTime ≠ 0 then
      d12_dd_handlePointerMovement e.frameInfo.PointerPosition zeroPointer false this
    else (this, zeroPointer, false)
  let postPointer := mv.2.2
  let sh : Option (DDInstance × CapturePointer × Bool) :=
    if e.frameInfo.PointerShapeBufferSize > 0 then
      d12_dd_handlePointerShape e.shape mv.2.1 e.frameInfo.PointerShapeBufferSize false mv.1
    else some (mv.1, mv.2.1, false)
  match sh with
  | none => none
  | some (this1, pointer, postShape) =>
    if postPointer = true then
      some ({ this1 with
              calls := this1.calls ++ [Call.updatePointer pointer this1.shapeBufferSize] },
        pointer, postPointer, postShape)
    else some (this1, pointer, postPointer, postShape)

/-- One pass of `d12_dd_capture` from the `retry:` label (dd.c 306-364). `none`
means the answers to the pointer shape query ran out. -/
def capturePass (e : AcquireOutcome) (this : DDInstance) : Option PassExit :=
  let this1 := releaseHeldFrame this
  let result := d12_dd_hResultToCaptureResult e.hr
  if result ≠ CAPTURE_RESULT_OK then
    if e.hr = DXGI_ERROR_ACCESS_LOST then
      let this2 : DDInstance := { this1 with calls := this1.calls ++ [Call.removedReason] }
      if FAILED e.removedReason = true then some (PassExit.exit CAPTURE_RESULT_ERROR this2)
      else some (PassExit.exit result this2)
    else some (PassExit.exit result this1)
  else
    let this2 : DDInstance := { this1 with release := true }
    let fu : Bool × DDInstance :=
      if e.frameInfo.LastPresentTime ≠ 0 then d12_dd_handleFrameUpdate e.res e.convert this2
      else (true, this2)
    if fu.1 = false then some (PassExit.exit CAPTURE_RESULT_ERROR fu.2)
    else
      match pointerBlock e fu.2 with
      | none => none
      | some (this3, _, _, _) =>
        if e.frameInfo.LastPresentTime = 0 then some (PassExit.retry this3)
        else some (PassExit.exit result this3)

/-- `d12_dd_capture` (dd.c 297-369). The list holds the environment's answers
for the successive passes; the result carries the answers not consumed.
`none` means the answers ran out before the call returned. The unused
`frameBufferIndex` parameter is left out. -/
def d12_dd_capture : List AcquireOutcome → DDInstance →
    Option (CaptureResult × DDInstance × List AcquireOutcome)
  | [], _ => none
  | e :: rest, this =>
    match capturePass e this with
    | none => none
    | some (PassExit.exit result this1) => some (result, this1, rest)
    | some (PassExit.retry this1) => d12_dd_capture rest this1

/-- `d12_dd_sync` (dd.c 371-381). `completed` is what
`ID3D11Fence_GetCompletedValue` answers for a fence. -/
def d12_dd_sync (completed : Nat → Nat) (this : DDInstance) : CaptureResult × DDInstance :=
  match this.current with
  | none => (CAPTURE_RESULT_TIMEOUT, this)
  | some i =>
    let cache := this.cache i
    if completed cache.fence < cache.fenceValue then
      (CAPTURE_RESULT_OK,
        { this with calls := this.calls ++ [Call.queueWait cache.d12Fence cache.fenceValue] })
    else (CAPTURE_RESULT_OK, this)

/-- A scheduler making `n` successive `d12_dd_capture` calls against one stream
of answers; the results are listed in call order. -/
def captureCalls : Nat → List AcquireOutcome → DDInstance →
    Option (List CaptureResult × DDInstance × List AcquireOutcome)
  | 0, evs, this => some ([], this, evs)
  | n + 1, evs, this =>
    match d12_dd_capture evs this with
    | none => none
    | some (r, this1, rest) =>
      match captureCalls n rest this1 with
      | none => none
      | some (rs, this2, rest2) => some (r :: rs, this2, rest2)

/-- Number of successful `d12_dd_convertResource` calls on slot `j` in a call
record. -/
def slotImports (j : Fin CACHE_SIZE) (calls : List Call) : Nat :=
  calls.countP (fun c => match c with
    | Call.convertResource _ slot ok => decide (slot = j) && ok
    | _ => false)

/-- The instance a pass ends with. -/
def PassExit.inst : PassExit → DDInstance
  | PassExit.exit _ this => this
  | PassExit.retry this => this

/-- The passes of `d12_dd_capture` that end in `goto retry`: the instance after
all of the listed answers were consumed that way, `none` if one of them was
not. -/
def retryPasses : List AcquireOutcome → DDInstance → Option DDInstance
  | [], this => some this
  | e :: rest, this =>
    match capturePass e this with
    | some (PassExit.retry this1) => retryPasses rest this1
    | _ => none

/-- How slot `j` may differ between the instance `a` before and the instance
`b` after a capture step: its fence value did not decrease and no import into
it was recorded, or one import into it was recorded and its fence value is 1. -/
def FenceStep (a b : DDInstance) (j : Fin CACHE_SIZE) : Prop :=
  ((a.cache j).fenceValue ≤ (b.cache j).fenceValue ∧
    slotImports j b.calls = slotImports j a.calls) ∨
  ((b.cache j).fenceValue = 1 ∧ slotImports j b.calls = slotImports j a.calls + 1)

/-! ## The row copy of `common/rects.h` -/

/-- The bytes of `dst` after `n` bytes of `src` from offset `s` have been
written at offset `d`. -/
def copyBytes (dst : List UInt8) (d : Nat) (src : List UInt8) (s : Nat) (n : Nat) :
    List UInt8 :=
  (List.range dst.length).map fun j =>
    if d ≤ j ∧ j < d + n then src.getD (s + (j - d)) 0 else dst.getD j 0

/-- C library `memcpy(dst + d, src + s, n)` for two separate buffers. The
offsets are what the C pointer arithmetic produced; the size is the C `int`
converted to `size_t`, so a negative one is out of every buffer. `none` is an
access outside a buffer. -/
def memcpy (dst : List UInt8) (d : Int) (src : List UInt8) (s : Int) (n : Int) :
    Option (List UInt8) :=
  if n = 0 then some dst
  else if 0 ≤ d ∧ 0 ≤ s ∧ 0 < n ∧ d + n ≤ dst.length ∧ s + n ≤ src.length then
    some (copyBytes dst d.toNat src s.toNat n.toNat)
  else none

/-- The `for (int i = ystart; i < yend; ++i)` loop of `rectCopyUnaligned`
(rects.h 35-40) with `rows` iterations left; `dOff` and `sOff` are the
offsets of the moving `dst` and `src` pointers from the start of their
buffers. -/
def rectCopyRows (src : List UInt8) (dstPitch srcPitch width : Int) :
    (rows : Nat) → (dst : List UInt8) → (dOff sOff : Int) → Option (List UInt8)
  | 0, dst, _, _ => some dst
  | rows + 1, dst, dOff, sOff =>
    match memcpy dst dOff src sOff width with
    | none => none
    | some dst1 => rectCopyRows src dstPitch srcPitch width rows dst1 (dOff + dstPitch)
        (sOff + srcPitch)

/-- Whether a value is one that a C `int` (32 bits, two's complement) holds. -/
def fitsInt (x : Int) : Bool := decide (-(2 ^ 31) ≤ x ∧ x < 2 ^ 31)

/-- `rectCopyUnaligned` (rects.h 30-41). The buffers are the byte sequences the
two pointers point into; the result is the destination buffer afterwards (the
source is `const` and not returned). The start offsets `ystart * srcPitch + dx`
and `ystart * dstPitch + dx` are C `int` expressions: when a product or a sum
of them is not a value of `int` the computation overflows, which C leaves
undefined, and the result is `none`. -/
def rectCopyUnaligned (dst src : List UInt8) (ystart yend dx dstPitch srcPitch width : Int) :
    Option (List UInt8) :=
  if fitsInt (ystart * srcPitch) = true ∧ fitsInt (ystart * srcPitch + dx) = true ∧
      fitsInt (ystart * dstPitch) = true ∧ fitsInt (ystart * dstPitch + dx) = true then
    rectCopyRows src dstPitch srcPitch width (yend - ystart).toNat dst
      (ystart * dstPitch + dx) (ystart * srcPitch + dx)
  else none

/-! ## Concrete answers of the environment used by the worked instances -/

/-- A concrete all-zero texture description, used by the worked instances. -/
def zeroDesc : D3D11_TEXTURE2D_DESC :=
  { Width := 0, Height := 0, MipLevels := 0, ArraySize := 0, Format := 0, SampleCount := 0,
    SampleQuality := 0, Usage := 0, BindFlags := 0, CPUAccessFlags := 0, MiscFlags := 0 }

/-- The cache entry as `calloc` leaves it. -/
def zeroCacheInfo : DDCacheInfo :=
  { format := zeroDesc, srcTex := 0, d12Res := 0, fence := 0, d12Fence := 0, fenceValue := 0,
    ready := false }

/-- The instance as `d12_dd_create` (`calloc`) and a successful `d12_dd_init`
leave it: every modelled field is zero. -/
def zeroInstance : DDInstance :=
  { release := false, cache := fun _ => zeroCacheInfo, current := none, lastPosValid := false,
    lastPos := { x := 0, y := 0, Visible := 0 }, shapeBuffer := false, shapeBufferSize := 0,
    calls := [] }

/-- An import in which every native call answers `S_OK`. -/
def goodImport : ImportOutcome :=
  { queryInterface := S_OK, createSharedHandle := S_OK, openResource := S_OK, dst := 101,
    createFence := S_OK, fence := 102, fenceSharedHandle := S_OK, openFence := S_OK,
    d12Fence := 103 }

/-- A 1920x1080 surface at address 7 (format 87 is `DXGI_FORMAT_B8G8R8A8_UNORM`). -/
def surfaceA : ID3D11Texture2D :=
  { ptr := 7, desc := { zeroDesc with Width := 1920, Height := 1080, Format := 87 } }

/-- The same address after a mode change to 1280x720. -/
def surfaceB : ID3D11Texture2D :=
  { ptr := 7, desc := { zeroDesc with Width := 1280, Height := 720, Format := 87 } }

/-- An instance whose slot 0 holds surface A, ready, with fence value 5. -/
def cachedA : DDInstance :=
  { zeroInstance with
    cache := Function.update zeroInstance.cache 0
      { format := surfaceA.desc, srcTex := surfaceA.ptr, d12Res := 101, fence := 102,
        d12Fence := 103, fenceValue := 5, ready := true } }

/-- An instance whose ten slots are ready and hold the surfaces at 100..109. -/
def fullInstance : DDInstance :=
  { zeroInstance with
    cache := fun j => { zeroCacheInfo with srcTex := 100 + j.val, ready := true } }

/-- Windows SDK: `DXGI_ERROR_DEVICE_REMOVED` (`0x887A0005` as a signed 32-bit value). -/
def DXGI_ERROR_DEVICE_REMOVED : HRESULT := 0x887A0005 - 0x100000000

/-- Windows SDK: `E_FAIL` (`0x80004005` as a signed 32-bit value). -/
def E_FAIL : HRESULT := 0x80004005 - 0x100000000

/-- An import whose `ID3D12Device3_OpenSharedHandle` fails. -/
def badImport : ImportOutcome := { goodImport with openResource := E_FAIL }

/-- A 1920x1080 surface at address 8. -/
def surfaceC : ID3D11Texture2D :=
  { ptr := 8, desc := { zeroDesc with Width := 1920, Height := 1080, Format := 87 } }

/-- A frame info block with no image, no pointer movement and no pointer shape. -/
def idleFrameInfo : DXGI_OUTDUPL_FRAME_INFO :=
  { LastPresentTime := 0, LastMouseUpdateTime := 0,
    PointerPosition := { x := 0, y := 0, Visible := 0 }, PointerShapeBufferSize := 0 }

/-- An acquire that succeeds with a new image of `tex` and no pointer data; if
an import is made it answers `o`. -/
def imageEvent (tex : ID3D11Texture2D) (o : ImportOutcome) : AcquireOutcome :=
  { hr := S_OK, frameInfo := { idleFrameInfo with LastPresentTime := 1 },
    res := { queryInterface := S_OK, srcTex := tex }, removedReason := S_OK, convert := o,
    shape := [] }

/-- An acquire that fails with `hr`; `GetDeviceRemovedReason`, if asked, answers
`removed`. -/
def failedAcquire (hr removed : HRESULT) : AcquireOutcome :=
  { hr := hr, frameInfo := idleFrameInfo,
    res := { queryInterface := S_OK, srcTex := surfaceA }, removedReason := removed,
    convert := goodImport, shape := [] }

/-- An acquire that succeeds with a 16-byte colour pointer shape only: no image
and no pointer movement. -/
def shapeEvent : AcquireOutcome :=
  { hr := S_OK, frameInfo := { idleFrameInfo with PointerShapeBufferSize := 16 },
    res := { queryInterface := S_OK, srcTex := surfaceA }, removedReason := S_OK,
    convert := goodImport,
    shape := [{ malloc := true, hr := S_OK, s := 16,
                info := { ShapeType := DXGI_OUTDUPL_POINTER_SHAPE_TYPE_COLOR, Width := 2,
                          Height := 2, Pitch := 8, HotSpotX := 0, HotSpotY := 0 } }] }

/-- The instance after `d12_dd_capture` has served the 1280x720 image of the
surface at address 7 to `cachedA`. -/
def cachedAfterRebuild : DDInstance :=
  ((d12_dd_capture [imageEvent surfaceB goodImport] cachedA).map (fun x => x.2.1)).getD cachedA

/-- The cache lookup that a pass of `d12_dd_capture` makes for a new image: the
call `d12_dd_getCache(*srcTex, &this->current)` of `d12_dd_handleFrameUpdate`,
made after the held frame was released and `release` was set again. -/
def passLookup (e : AcquireOutcome) (this : DDInstance) :
    Bool × Option (Fin CACHE_SIZE) × DDInstance :=
  d12_dd_getCache e.convert e.res.srcTex { releaseHeldFrame this with release := true }

/-- An instance whose slot 0 holds surface A, ready, with the fence value at
the largest `UINT64`. -/
def cachedAtMax : DDInstance :=
  { zeroInstance with
    cache := Function.update zeroInstance.cache 0
      { format := surfaceA.desc, srcTex := surfaceA.ptr, d12Res := 101, fence := 102,
        d12Fence := 103, fenceValue := 2 ^ 64 - 1, ready := true } }

/-- The instance after `d12_dd_capture` has served the image of surface A to
`cachedA`. -/
def cachedAfterHit : DDInstance :=
  ((d12_dd_capture [imageEvent surfaceA goodImport] cachedA).map (fun x => x.2.1)).getD cachedA

/-! ## Theorems -/


/-! ### Facts about the import and the scan loop -/

theorem convertResource_ok (o : ImportOutcome) (srcTex : ID3D11Texture2D) (c : DDCacheInfo)
    (h : (d12_dd_convertResource o srcTex c).1 = true) :
    (d12_dd_convertResource o srcTex c).2 =
      { format := srcTex.desc, srcTex := srcTex.ptr, d12Res := o.dst, fence := o.fence,
        d12Fence := o.d12Fence, fenceValue := 0, ready := true } := by
  unfold d12_dd_convertResource at h ⊢
  split_ifs at h ⊢
  rfl

theorem convertResource_fail (o : ImportOutcome) (srcTex : ID3D11Texture2D) (c : DDCacheInfo)
    (h : (d12_dd_convertResource o srcTex c).1 = false) :
    (d12_dd_convertResource o srcTex c).2 = c := by
  unfold d12_dd_convertResource at h ⊢
  split_ifs at h ⊢ <;> simp_all

theorem getCacheLoop_hit (srcTex : ID3D11Texture2D) (cache : Fin CACHE_SIZE → DDCacheInfo)
    (i : Fin CACHE_SIZE)
    (huniq : ∀ j, (cache j).ready = true → (cache j).srcTex = srcTex.ptr → j = i)
    (hready : (cache i).ready = true) (hptr : (cache i).srcTex = srcTex.ptr)
    (hW : (cache i).format.Width = srcTex.desc.Width)
    (hH : (cache i).format.Height = srcTex.desc.Height)
    (hF : (cache i).format.Format = srcTex.desc.Format) :
    ∀ (n k free : Nat), k ≤ i.val → i.val < k + n →
      getCacheLoop srcTex cache n k free = ScanExit.hit i := by
  intro n
  induction n with
  | zero => intro k free h1 h2; omega
  | succ n ih =>
    intro k free h1 h2
    have hk : k < CACHE_SIZE := lt_of_le_of_lt h1 i.isLt
    rw [getCacheLoop]
    simp only [hk, dite_true]
    by_cases hki : k = i.val
    · have e : (⟨k, hk⟩ : Fin CACHE_SIZE) = i := Fin.ext hki
      simp [e, hready, hptr, hW, hH, hF]
    · have hne : (⟨k, hk⟩ : Fin CACHE_SIZE) ≠ i := fun e => hki (congrArg Fin.val e)
      by_cases hr : (cache ⟨k, hk⟩).ready = false
      · simp only [hr, if_true]
        exact ih _ _ (by omega) (by omega)
      · have hr1 : (cache ⟨k, hk⟩).ready = true := by simpa using hr
        have hp : (cache ⟨k, hk⟩).srcTex ≠ srcTex.ptr := fun e => hne (huniq _ hr1 e)
        simp only [hr1, hp, ne_eq, not_false_eq_true, if_true, Bool.true_eq_false, if_false]
        exact ih _ _ (by omega) (by omega)

theorem getCacheLoop_rebuild (srcTex : ID3D11Texture2D) (cache : Fin CACHE_SIZE → DDCacheInfo)
    (i : Fin CACHE_SIZE)
    (huniq : ∀ j, (cache j).ready = true → (cache j).srcTex = srcTex.ptr → j = i)
    (hready : (cache i).ready = true) (hptr : (cache i).srcTex = srcTex.ptr)
    (hdiff : (cache i).format.Width ≠ srcTex.desc.Width ∨
      (cache i).format.Height ≠ srcTex.desc.Height ∨
      (cache i).format.Format ≠ srcTex.desc.Format) :
    ∀ (n k free : Nat), k ≤ i.val → i.val < k + n →
      getCacheLoop srcTex cache n k free =
        ScanExit.done (Function.update cache i { cache i with ready := false }) i.val := by
  intro n
  induction n with
  | zero => intro k free h1 h2; omega
  | succ n ih =>
    intro k free h1 h2
    have hk : k < CACHE_SIZE := lt_of_le_of_lt h1 i.isLt
    rw [getCacheLoop]
    simp only [hk, dite_true]
    by_cases hki : k = i.val
    · have e : (⟨k, hk⟩ : Fin CACHE_SIZE) = i := Fin.ext hki
      simp only [e, hready, hptr, ne_eq, not_true_eq_false, if_false, Bool.true_eq_false]
      rw [if_pos hdiff, hki]
    · have hne : (⟨k, hk⟩ : Fin CACHE_SIZE) ≠ i := fun e => hki (congrArg Fin.val e)
      by_cases hr : (cache ⟨k, hk⟩).ready = false
      · simp only [hr, if_true]
        exact ih _ _ (by omega) (by omega)
      · have hr1 : (cache ⟨k, hk⟩).ready = true := by simpa using hr
        have hp : (cache ⟨k, hk⟩).srcTex ≠ srcTex.ptr := fun e => hne (huniq _ hr1 e)
        simp only [hr1, hp, ne_eq, not_false_eq_true, if_true, Bool.true_eq_false, if_false]
        exact ih _ _ (by omega) (by omega)

theorem getCacheLoop_full (srcTex : ID3D11Texture2D) (cache : Fin CACHE_SIZE → DDCacheInfo)
    (hready : ∀ j, (cache j).ready = true)
    (hnone : ∀ j, (cache j).srcTex ≠ srcTex.ptr) :
    ∀ (n k free : Nat), getCacheLoop srcTex cache n k free = ScanExit.done cache free := by
  intro n
  induction n with
  | zero => intro k free; rfl
  | succ n ih =>
    intro k free
    rw [getCacheLoop]
    by_cases hk : k < CACHE_SIZE
    · simp only [hk, dite_true, hready, Bool.true_eq_false, if_false, hnone, ne_eq,
        not_false_eq_true, if_true]
      exact ih _ _
    · simp only [hk, dite_false]

theorem getCacheLoop_empty (srcTex : ID3D11Texture2D) (cache : Fin CACHE_SIZE → DDCacheInfo)
    (hempty : ∀ j, (cache j).ready = false) :
    ∀ (n k free : Nat), getCacheLoop srcTex cache n k free =
      ScanExit.done cache (if n = 0 ∨ CACHE_SIZE ≤ k then free else min free k) := by
  intro n
  induction n with
  | zero => intro k free; simp [getCacheLoop]
  | succ n ih =>
    intro k free
    rw [getCacheLoop]
    by_cases hk : k < CACHE_SIZE
    · simp only [hk, dite_true, hempty, if_true]
      rw [ih]
      congr 1
      have hk2 : ¬ (CACHE_SIZE ≤ k) := by omega
      simp only [Nat.add_one_ne_zero, false_or, hk2, if_false]
      split_ifs <;> omega
    · have hk2 : CACHE_SIZE ≤ k := by omega
      simp only [hk, dite_false, hk2, or_true, if_true]


/-! ### The three cache contracts -/

theorem getCache_returns_hit (o : ImportOutcome) (srcTex : ID3D11Texture2D)
    (this : DDInstance) (i : Fin CACHE_SIZE)
    (huniq : ∀ j, (this.cache j).ready = true → (this.cache j).srcTex = srcTex.ptr → j = i)
    (hready : (this.cache i).ready = true) (hptr : (this.cache i).srcTex = srcTex.ptr)
    (hW : (this.cache i).format.Width = srcTex.desc.Width)
    (hH : (this.cache i).format.Height = srcTex.desc.Height)
    (hF : (this.cache i).format.Format = srcTex.desc.Format) :
    d12_dd_getCache o srcTex this = (true, some i, this) := by
  unfold d12_dd_getCache
  rw [getCacheLoop_hit srcTex this.cache i huniq hready hptr hW hH hF CACHE_SIZE 0 CACHE_SIZE
    (Nat.zero_le _) (by have := i.isLt; omega)]

/-- C1: cache hit. When at most one ready slot holds the requested handle and
ready slot `i` holds it with the requested width, height and format,
`d12_dd_getCache` returns true with `*result` on slot `i` and leaves the whole
instance, call record included, as it was (no import, no slot changed). And
from a cache with no ready slot, with a succeeding import, the first
request imports once and a second request for the same identity returns the
same slot and changes nothing. -/
theorem getCache_hit :
    (∀ (o : ImportOutcome) (srcTex : ID3D11Texture2D) (this : DDInstance) (i : Fin CACHE_SIZE),
      (∀ j, (this.cache j).ready = true → (this.cache j).srcTex = srcTex.ptr → j = i) →
      (this.cache i).ready = true → (this.cache i).srcTex = srcTex.ptr →
      (this.cache i).format.Width = srcTex.desc.Width →
      (this.cache i).format.Height = srcTex.desc.Height →
      (this.cache i).format.Format = srcTex.desc.Format →
      d12_dd_getCache o srcTex this = (true, some i, this)) ∧
    (∀ (o : ImportOutcome) (srcTex : ID3D11Texture2D) (this : DDInstance),
      (∀ j, (this.cache j).ready = false) →
      (∀ c, (d12_dd_convertResource o srcTex c).1 = true) →
      ∃ (i : Fin CACHE_SIZE) (this1 : DDInstance),
        d12_dd_getCache o srcTex this = (true, some i, this1) ∧
        this1.calls = this.calls ++ [Call.convertResource srcTex.ptr i true] ∧
        countImports this1.calls = countImports this.calls + 1 ∧
        ∀ (o2 : ImportOutcome) (srcTex2 : ID3D11Texture2D),
          srcTex2.ptr = srcTex.ptr → srcTex2.desc.Width = srcTex.desc.Width →
          srcTex2.desc.Height = srcTex.desc.Height →
          srcTex2.desc.Format = srcTex.desc.Format →
          d12_dd_getCache o2 srcTex2 this1 = (true, some i, this1)) := by
  have part1 := getCache_returns_hit
  refine ⟨part1, ?_⟩
  intro o srcTex this hempty hok
  have h0 : (0 : Nat) < CACHE_SIZE := by decide
  have hconv := convertResource_ok o srcTex (this.cache ⟨0, h0⟩) (hok _)
  have hget : d12_dd_getCache o srcTex this =
      (true, some ⟨0, h0⟩,
        { this with
          cache := Function.update this.cache ⟨0, h0⟩
            (d12_dd_convertResource o srcTex (this.cache ⟨0, h0⟩)).2
          calls := this.calls ++ [Call.convertResource srcTex.ptr ⟨0, h0⟩ true] }) := by
    unfold d12_dd_getCache
    rw [getCacheLoop_empty srcTex this.cache hempty]
    simp [hok]
  refine ⟨⟨0, h0⟩, _, hget, rfl, ?_, ?_⟩
  · simp [countImports, List.countP_append]
  · intro o2 srcTex2 hp hW hH hF
    apply part1
    · intro j hr _
      by_contra hj
      simp only [Function.update_noteq hj] at hr
      rw [hempty j] at hr
      exact Bool.false_ne_true hr
    · simp only [Function.update_same, hconv]
    · simp only [Function.update_same, hconv, hp]
    · simp only [Function.update_same, hconv, hW]
    · simp only [Function.update_same, hconv, hH]
    · simp only [Function.update_same, hconv, hF]

/-- C1, worked instance: slot 0 holds surface A, a request for surface A is a
hit on slot 0; and from the zeroed instance two requests for surface A import
once and both return slot 0. -/
theorem getCache_hit_witness :
    d12_dd_getCache goodImport surfaceA
        { zeroInstance with
          cache := Function.update zeroInstance.cache 0
            (d12_dd_convertResource goodImport surfaceA zeroCacheInfo).2 } =
      (true, some 0,
        { zeroInstance with
          cache := Function.update zeroInstance.cache 0
            (d12_dd_convertResource goodImport surfaceA zeroCacheInfo).2 }) ∧
    ∃ (i : Fin CACHE_SIZE) (this1 : DDInstance),
      d12_dd_getCache goodImport surfaceA zeroInstance = (true, some i, this1) ∧
      this1.calls = zeroInstance.calls ++ [Call.convertResource surfaceA.ptr i true] ∧
      countImports this1.calls = countImports zeroInstance.calls + 1 ∧
      ∀ (o2 : ImportOutcome) (srcTex2 : ID3D11Texture2D),
        srcTex2.ptr = surfaceA.ptr → srcTex2.desc.Width = surfaceA.desc.Width →
        srcTex2.desc.Height = surfaceA.desc.Height →
        srcTex2.desc.Format = surfaceA.desc.Format →
        d12_dd_getCache o2 srcTex2 this1 = (true, some i, this1) :=
  ⟨getCache_hit.1 goodImport surfaceA _ 0
      (by
        intro j hr _
        by_contra hj
        simp only [Function.update_noteq hj] at hr
        exact Bool.false_ne_true hr)
      (by simp [d12_dd_convertResource, goodImport, FAILED, S_OK])
      (by simp [d12_dd_convertResource, goodImport, FAILED, S_OK])
      (by simp [d12_dd_convertResource, goodImport, FAILED, S_OK])
      (by simp [d12_dd_convertResource, goodImport, FAILED, S_OK])
      (by simp [d12_dd_convertResource, goodImport, FAILED, S_OK]),
    getCache_hit.2 goodImport surfaceA zeroInstance (fun _ => rfl)
      (fun _ => by simp [d12_dd_convertResource, goodImport, FAILED, S_OK])⟩

/-- C2: cache format change. When ready slot `i` is the only ready slot holding
the requested handle, its stored width, height or format differs from the
surface's and the import succeeds, `d12_dd_getCache` makes exactly one
`d12_dd_convertResource` call, on slot `i`, returns true with `*result` on
slot `i`, leaves slot `i` ready with the new description and every other slot
as it was; a following request for the same handle and the new format is a
hit on slot `i` that changes nothing. -/
theorem getCache_format_change (o : ImportOutcome) (srcTex : ID3D11Texture2D)
    (this : DDInstance) (i : Fin CACHE_SIZE)
    (huniq : ∀ j, (this.cache j).ready = true → (this.cache j).srcTex = srcTex.ptr → j = i)
    (hready : (this.cache i).ready = true) (hptr : (this.cache i).srcTex = srcTex.ptr)
    (hdiff : (this.cache i).format.Width ≠ srcTex.desc.Width ∨
      (this.cache i).format.Height ≠ srcTex.desc.Height ∨
      (this.cache i).format.Format ≠ srcTex.desc.Format)
    (hok : ∀ c, (d12_dd_convertResource o srcTex c).1 = true) :
    ∃ this1 : DDInstance,
      d12_dd_getCache o srcTex this = (true, some i, this1) ∧
      this1.calls = this.calls ++ [Call.convertResource srcTex.ptr i true] ∧
      countImports this1.calls = countImports this.calls + 1 ∧
      (this1.cache i).ready = true ∧
      (this1.cache i).format = srcTex.desc ∧
      (this1.cache i).srcTex = srcTex.ptr ∧
      (∀ j, j ≠ i → this1.cache j = this.cache j) ∧
      ∀ (o2 : ImportOutcome) (srcTex2 : ID3D11Texture2D),
        srcTex2.ptr = srcTex.ptr → srcTex2.desc.Width = srcTex.desc.Width →
        srcTex2.desc.Height = srcTex.desc.Height →
        srcTex2.desc.Format = srcTex.desc.Format →
        d12_dd_getCache o2 srcTex2 this1 = (true, some i, this1) := by
  have hi : i.val < CACHE_SIZE := i.isLt
  have hne : i.val ≠ CACHE_SIZE := Nat.ne_of_lt hi
  have hconv := fun c => convertResource_ok o srcTex c (hok c)
  have hget : d12_dd_getCache o srcTex this =
      (true, some i,
        { this with
          cache := Function.update
            (Function.update this.cache i { this.cache i with ready := false }) i
            (d12_dd_convertResource o srcTex
              (Function.update this.cache i { this.cache i with ready := false } i)).2
          calls := this.calls ++ [Call.convertResource srcTex.ptr i true] }) := by
    unfold d12_dd_getCache
    rw [getCacheLoop_rebuild srcTex this.cache i huniq hready hptr hdiff CACHE_SIZE 0 CACHE_SIZE
      (Nat.zero_le _) (by omega)]
    simp only [hne, if_false, hi, dite_true, Fin.eta, hok, Bool.true_eq_false]
  refine ⟨_, hget, rfl, ?_, ?_, ?_, ?_, ?_, ?_⟩
  · simp [countImports, List.countP_append]
  · simp only [Function.update_same, hconv]
  · simp only [Function.update_same, hconv]
  · simp only [Function.update_same, hconv]
  · intro j hj
    simp only [Function.update_noteq hj]
  · intro o2 srcTex2 hp hW hH hF
    apply getCache_returns_hit
    · intro j hr hs
      by_contra hj
      simp only [Function.update_noteq hj] at hr hs
      exact hj (huniq j hr (hs.trans hp))
    · simp only [Function.update_same, hconv]
    · simp only [Function.update_same, hconv, hp]
    · simp only [Function.update_same, hconv, hW]
    · simp only [Function.update_same, hconv, hH]
    · simp only [Function.update_same, hconv, hF]

/-- C2, worked instance: slot 0 holds the 1920x1080 surface at address 7 and the
surface at address 7 now reports 1280x720. -/
theorem getCache_format_change_witness :
    ∃ this1 : DDInstance,
      d12_dd_getCache goodImport surfaceB cachedA = (true, some 0, this1) ∧
      this1.calls = cachedA.calls ++ [Call.convertResource surfaceB.ptr 0 true] ∧
      countImports this1.calls = countImports cachedA.calls + 1 ∧
      (this1.cache 0).ready = true ∧
      (this1.cache 0).format = surfaceB.desc ∧
      (this1.cache 0).srcTex = surfaceB.ptr ∧
      (∀ j, j ≠ 0 → this1.cache j = cachedA.cache j) ∧
      ∀ (o2 : ImportOutcome) (srcTex2 : ID3D11Texture2D),
        srcTex2.ptr = surfaceB.ptr → srcTex2.desc.Width = surfaceB.desc.Width →
        srcTex2.desc.Height = surfaceB.desc.Height →
        srcTex2.desc.Format = surfaceB.desc.Format →
        d12_dd_getCache o2 srcTex2 this1 = (true, some 0, this1) :=
  getCache_format_change goodImport surfaceB cachedA 0
    (by
      intro j hr _
      by_contra hj
      simp only [cachedA, Function.update_noteq hj] at hr
      exact Bool.false_ne_true hr)
    (by simp [cachedA])
    (by simp [cachedA, surfaceA, surfaceB])
    (by simp [cachedA, surfaceA, surfaceB])
    (fun _ => by simp [d12_dd_convertResource, goodImport, FAILED, S_OK])

/-- C3: cache exhaustion. When all ten slots are ready and none holds the
requested handle, `d12_dd_getCache` returns false with `*result` null, makes
no `d12_dd_convertResource` call and leaves the instance, all ten entries
included, exactly as it was. -/
theorem getCache_exhausted (o : ImportOutcome) (srcTex : ID3D11Texture2D) (this : DDInstance)
    (hready : ∀ j, (this.cache j).ready = true)
    (hnone : ∀ j, (this.cache j).srcTex ≠ srcTex.ptr) :
    d12_dd_getCache o srcTex this = (false, none, this) ∧
    (d12_dd_getCache o srcTex this).2.2.cache = this.cache ∧
    countImports (d12_dd_getCache o srcTex this).2.2.calls = countImports this.calls := by
  have h : d12_dd_getCache o srcTex this = (false, none, this) := by
    unfold d12_dd_getCache
    rw [getCacheLoop_full srcTex this.cache hready hnone]
    simp
  rw [h]
  exact ⟨rfl, rfl, rfl⟩

/-- C3, worked instance: ten ready slots for the surfaces at 100..109 and a
request for the surface at address 7. -/
theorem getCache_exhausted_witness :
    d12_dd_getCache goodImport surfaceA fullInstance = (false, none, fullInstance) ∧
    (d12_dd_getCache goodImport surfaceA fullInstance).2.2.cache = fullInstance.cache ∧
    countImports (d12_dd_getCache goodImport surfaceA fullInstance).2.2.calls =
      countImports fullInstance.calls :=
  getCache_exhausted goodImport surfaceA fullInstance (fun _ => rfl)
    (fun j => by
      have := j.isLt
      simp only [fullInstance, surfaceA, ne_eq]
      omega)

/-- C5: pointer movement. Called as `d12_dd_capture` calls it, with `*changed`
false and a `*pointer` whose `positionUpdate` is clear: without a recorded
position, `changed` is true and `positionUpdate` is the input's visibility;
with one, `positionUpdate` is (visible and (x, y) differs from the recorded
one) and `changed` is (the `Visible` field differs from the recorded one) or
`positionUpdate`, so an identical position with unchanged visibility gives
`changed = false` and a visibility flip at the same position gives
`changed = true`. Always the reported `visible` is the input's, and the
recorded position is the input with `lastPosValid` set. -/
theorem handlePointerMovement_contract (pos : DXGI_OUTDUPL_POINTER_POSITION)
    (pointer : CapturePointer) (this : DDInstance)
    (hclear : pointer.positionUpdate = false) :
    (this.lastPosValid = false →
      (d12_dd_handlePointerMovement pos pointer false this).2.2 = true ∧
      (d12_dd_handlePointerMovement pos pointer false this).2.1.positionUpdate =
        decide (pos.Visible ≠ 0)) ∧
    (this.lastPosValid = true →
      (d12_dd_handlePointerMovement pos pointer false this).2.1.positionUpdate =
        decide (pos.Visible ≠ 0 ∧ (pos.x ≠ this.lastPos.x ∨ pos.y ≠ this.lastPos.y)) ∧
      (d12_dd_handlePointerMovement pos pointer false this).2.2 =
        (decide (pos.Visible ≠ this.lastPos.Visible) ||
          (d12_dd_handlePointerMovement pos pointer false this).2.1.positionUpdate) ∧
      (pos.x = this.lastPos.x → pos.y = this.lastPos.y →
        pos.Visible = this.lastPos.Visible →
        (d12_dd_handlePointerMovement pos pointer false this).2.2 = false) ∧
      (pos.x = this.lastPos.x → pos.y = this.lastPos.y →
        pos.Visible ≠ this.lastPos.Visible →
        (d12_dd_handlePointerMovement pos pointer false this).2.2 = true)) ∧
    (d12_dd_handlePointerMovement pos pointer false this).2.1.visible =
      decide (pos.Visible ≠ 0) ∧
    (d12_dd_handlePointerMovement pos pointer false this).1.lastPos = pos ∧
    (d12_dd_handlePointerMovement pos pointer false this).1.lastPosValid = true := by
  refine ⟨?_, ?_, ?_, rfl, rfl⟩
  · intro hv
    unfold d12_dd_handlePointerMovement
    simp only [hv, Bool.false_eq_true, if_false]
    by_cases hvis : pos.Visible = 0 <;> simp [hvis, hclear]
  · intro hv
    unfold d12_dd_handlePointerMovement
    simp only [hv, if_true]
    by_cases hvis : pos.Visible = 0 <;> by_cases hx : pos.x = this.lastPos.x <;>
      by_cases hy : pos.y = this.lastPos.y <;>
      by_cases hl : pos.Visible = this.lastPos.Visible <;>
      simp [eq_true hvis, eq_true hx, eq_true hy, eq_true hl, hclear]
  · unfold d12_dd_handlePointerMovement
    dsimp only
    split_ifs <;> rfl

/-- C5, worked instance: the first movement report on the zeroed instance. -/
theorem handlePointerMovement_contract_witness :
    (d12_dd_handlePointerMovement { x := 3, y := 4, Visible := 1 } zeroPointer false
        zeroInstance).2.2 = true ∧
    (d12_dd_handlePointerMovement { x := 3, y := 4, Visible := 1 } zeroPointer false
        zeroInstance).2.1.positionUpdate = decide ((1 : Int) ≠ 0) :=
  (handlePointerMovement_contract { x := 3, y := 4, Visible := 1 } zeroPointer zeroInstance
    rfl).1 rfl


/-! ### The row copy -/

theorem copyBytes_length (dst : List UInt8) (d : Nat) (src : List UInt8) (s n : Nat) :
    (copyBytes dst d src s n).length = dst.length := by
  simp [copyBytes]

theorem copyBytes_get (dst : List UInt8) (d : Nat) (src : List UInt8) (s n : Nat)
    (hd : d + n ≤ dst.length) (hs : s + n ≤ src.length) (j : Nat) :
    (copyBytes dst d src s n)[j]? =
      if d ≤ j ∧ j < d + n then src[s + (j - d)]? else dst[j]? := by
  unfold copyBytes
  rw [List.getElem?_map]
  by_cases hj : j < dst.length
  · rw [List.getElem?_range hj]
    simp only [Option.map_some']
    split_ifs with hwin
    · have hlt : s + (j - d) < src.length := by omega
      rw [List.getD_eq_getElem _ _ hlt, List.getElem?_eq_getElem hlt]
    · rw [List.getD_eq_getElem _ _ hj, List.getElem?_eq_getElem hj]
  · have hge : dst.length ≤ j := by omega
    rw [List.getElem?_eq_none (by simpa using hge)]
    have hwin : ¬ (d ≤ j ∧ j < d + n) := by omega
    simp only [Option.map_none', hwin, if_false]
    exact (List.getElem?_eq_none hge).symm

theorem memcpy_spec (dst : List UInt8) (d : Nat) (src : List UInt8) (s n : Nat)
    (h : ∀ k, k < n → d + k < dst.length ∧ s + k < src.length) :
    ∃ dst1, memcpy dst (d : Int) src (s : Int) (n : Int) = some dst1 ∧
      dst1.length = dst.length ∧
      ∀ j, dst1[j]? = if d ≤ j ∧ j < d + n then src[s + (j - d)]? else dst[j]? := by
  unfold memcpy
  by_cases hn : n = 0
  · subst hn
    refine ⟨dst, by simp, rfl, fun j => ?_⟩
    have : ¬ (d ≤ j ∧ j < d + 0) := by omega
    simp only [this, if_false]
  · have hb := h (n - 1) (by omega)
    have hd : d + n ≤ dst.length := by omega
    have hs : s + n ≤ src.length := by omega
    have hn' : ¬ ((n : Int) = 0) := by omega
    have hc : (0 : Int) ≤ (d : Int) ∧ (0 : Int) ≤ (s : Int) ∧ (0 : Int) < (n : Int) ∧
        (d : Int) + (n : Int) ≤ (dst.length : Int) ∧
        (s : Int) + (n : Int) ≤ (src.length : Int) := by
      refine ⟨by omega, by omega, by omega, by omega, by omega⟩
    refine ⟨copyBytes dst d src s n, ?_, copyBytes_length _ _ _ _ _,
      copyBytes_get dst d src s n hd hs⟩
    simp only [hn', if_false, hc, and_self, if_true, Int.toNat_ofNat]

theorem rectCopyRows_spec (src : List UInt8) (dp sp w : Nat) (hw : w ≤ dp) :
    ∀ (rows : Nat) (dst : List UInt8) (dOff sOff : Nat),
      (∀ t, t < rows → ∀ k, k < w →
        dOff + t * dp + k < dst.length ∧ sOff + t * sp + k < src.length) →
      ∃ dst1, rectCopyRows src (dp : Int) (sp : Int) (w : Int) rows dst (dOff : Int) (sOff : Int) =
          some dst1 ∧
        dst1.length = dst.length ∧
        (∀ t, t < rows → ∀ k, k < w → dst1[dOff + t * dp + k]? = src[sOff + t * sp + k]?) ∧
        (∀ j, (∀ t, t < rows → ∀ k, k < w → j ≠ dOff + t * dp + k) → dst1[j]? = dst[j]?) := by
  intro rows
  induction rows with
  | zero =>
    intro dst dOff sOff _
    exact ⟨dst, rfl, rfl, fun t ht => absurd ht (Nat.not_lt_zero t), fun _ _ => rfl⟩
  | succ r ih =>
    intro dst dOff sOff hrange
    have h0 : ∀ k, k < w → dOff + k < dst.length ∧ sOff + k < src.length := by
      intro k hk
      have := hrange 0 (Nat.succ_pos r) k hk
      simpa using this
    obtain ⟨dstA, hA, hlenA, hgetA⟩ := memcpy_spec dst dOff src sOff w h0
    have hrange' : ∀ t, t < r → ∀ k, k < w →
        (dOff + dp) + t * dp + k < dstA.length ∧ (sOff + sp) + t * sp + k < src.length := by
      intro t ht k hk
      have := hrange (t + 1) (Nat.succ_lt_succ ht) k hk
      rw [Nat.succ_mul, Nat.succ_mul] at this
      rw [hlenA]
      omega
    obtain ⟨dstB, hB, hlenB, hrowsB, hrestB⟩ := ih dstA (dOff + dp) (sOff + sp) hrange'
    refine ⟨dstB, ?_, hlenB.trans hlenA, ?_, ?_⟩
    · rw [rectCopyRows, hA]
      simp only
      have e1 : (dOff : Int) + (dp : Int) = ((dOff + dp : Nat) : Int) := by push_cast; rfl
      have e2 : (sOff : Int) + (sp : Int) = ((sOff + sp : Nat) : Int) := by push_cast; rfl
      rw [e1, e2]
      exact hB
    · intro t ht k hk
      cases t with
      | zero =>
        have hout : ∀ t', t' < r → ∀ k', k' < w → dOff + 0 * dp + k ≠ (dOff + dp) + t' * dp + k' := by
          intro t' _ k' _
          have := Nat.zero_le (t' * dp)
          omega
        rw [hrestB _ hout, hgetA]
        have hwin : dOff ≤ dOff + 0 * dp + k ∧ dOff + 0 * dp + k < dOff + w := by omega
        simp only [hwin, and_self, if_true]
        congr 1
        omega
      | succ t' =>
        have := hrowsB t' (Nat.lt_of_succ_lt_succ ht) k hk
        rw [Nat.succ_mul, Nat.succ_mul]
        have e1 : dOff + (t' * dp + dp) + k = dOff + dp + t' * dp + k := by omega
        have e2 : sOff + (t' * sp + sp) + k = sOff + sp + t' * sp + k := by omega
        rw [e1, e2]
        exact this
    · intro j hj
      have hout : ∀ t', t' < r → ∀ k', k' < w → j ≠ (dOff + dp) + t' * dp + k' := by
        intro t' ht' k' hk'
        have := hj (t' + 1) (Nat.succ_lt_succ ht') k' hk'
        rw [Nat.succ_mul] at this
        omega
      rw [hrestB j hout, hgetA]
      have hwin : ¬ (dOff ≤ j ∧ j < dOff + w) := by
        intro ⟨h1, h2⟩
        have := hj 0 (Nat.succ_pos r) (j - dOff) (by omega)
        omega
      simp only [hwin, if_false]

/-- C6, counterexample: two buffers of 2^31 + 1 bytes and the one-byte row
32768 with both pitches 65536. Every condition of the claim holds (the one
accessed index, 2^31, is in range), but the start offset `32768 * 65536` is
2^31, not a value of `int`: the C computation overflows and no copy is
defined. -/
theorem rectCopyUnaligned_offset_overflow :
    ((32768 : Nat) ≤ 32769 ∧ (1 : Nat) ≤ 65536 ∧
      ∀ y : Nat, 32768 ≤ y → y < 32769 → ∀ k : Nat, k < 1 →
        y * 65536 + 0 + k < (List.replicate (2 ^ 31 + 1) (0 : UInt8)).length ∧
        y * 65536 + 0 + k < (List.replicate (2 ^ 31 + 1) (1 : UInt8)).length) ∧
    fitsInt (32768 * 65536) = false ∧
    rectCopyUnaligned (List.replicate (2 ^ 31 + 1) 0) (List.replicate (2 ^ 31 + 1) 1)
      32768 32769 0 65536 65536 1 = none := by
  refine ⟨⟨by decide, by decide, ?_⟩, by decide, ?_⟩
  · intro y h1 h2 k hk
    simp only [List.length_replicate]
    omega
  · have hov : fitsInt (32768 * 65536) = false := by decide
    unfold rectCopyUnaligned
    rw [if_neg]
    intro h
    rw [hov] at h
    exact Bool.false_ne_true h.1

/-- C6 (amended): row-copy primitive. For separate byte buffers and
non-negative `int` values `ystart <= yend`, `dx`, `width`, pitches with
`width <= dstPitch`, every accessed index in range, and the two start offsets
`ystart * dstPitch + dx` and `ystart * srcPitch + dx` values of `int` (below
2^31), `rectCopyUnaligned` completes, keeps the size of the destination, makes
`dst'[y*dstPitch + dx + k] = src[y*srcPitch + dx + k]` for every
`ystart <= y < yend` and `k < width`, and leaves every other byte of the
destination as it was. -/
theorem rectCopyUnaligned_rows (dst src : List UInt8)
    (ystart yend dx dstPitch srcPitch width : Nat)
    (hy : ystart ≤ yend) (hw : width ≤ dstPitch)
    (_hint : yend < 2 ^ 31 ∧ dx < 2 ^ 31 ∧ dstPitch < 2 ^ 31 ∧ srcPitch < 2 ^ 31 ∧
      width < 2 ^ 31)
    (hoff : ystart * dstPitch + dx < 2 ^ 31 ∧ ystart * srcPitch + dx < 2 ^ 31)
    (hrange : ∀ y, ystart ≤ y → y < yend → ∀ k, k < width →
      y * dstPitch + dx + k < dst.length ∧ y * srcPitch + dx + k < src.length) :
    ∃ dst1, rectCopyUnaligned dst src (ystart : Int) (yend : Int) (dx : Int) (dstPitch : Int)
        (srcPitch : Int) (width : Int) = some dst1 ∧
      dst1.length = dst.length ∧
      (∀ y, ystart ≤ y → y < yend → ∀ k, k < width →
        dst1[y * dstPitch + dx + k]? = src[y * srcPitch + dx + k]? ∧
        y * dstPitch + dx + k < dst1.length) ∧
      (∀ j, (∀ y, ystart ≤ y → y < yend → ∀ k, k < width → j ≠ y * dstPitch + dx + k) →
        dst1[j]? = dst[j]?) := by
  have hr : ∀ t, t < yend - ystart → ∀ k, k < width →
      (ystart * dstPitch + dx) + t * dstPitch + k < dst.length ∧
      (ystart * srcPitch + dx) + t * srcPitch + k < src.length := by
    intro t ht k hk
    have := hrange (ystart + t) (Nat.le_add_right _ _) (by omega) k hk
    rw [Nat.add_mul, Nat.add_mul] at this
    omega
  obtain ⟨dst1, h1, hlen, hrows, hrest⟩ :=
    rectCopyRows_spec src dstPitch srcPitch width hw (yend - ystart) dst
      (ystart * dstPitch + dx) (ystart * srcPitch + dx) hr
  refine ⟨dst1, ?_, hlen, ?_, ?_⟩
  · unfold rectCopyUnaligned
    have e0 : ((yend : Int) - (ystart : Int)).toNat = yend - ystart := by omega
    have ed : (ystart : Int) * (dstPitch : Int) = ((ystart * dstPitch : Nat) : Int) := by
      push_cast; rfl
    have es : (ystart : Int) * (srcPitch : Int) = ((ystart * srcPitch : Nat) : Int) := by
      push_cast; rfl
    have hfit : fitsInt (((ystart * srcPitch : Nat) : Int)) = true ∧
        fitsInt (((ystart * srcPitch : Nat) : Int) + (dx : Int)) = true ∧
        fitsInt (((ystart * dstPitch : Nat) : Int)) = true ∧
        fitsInt (((ystart * dstPitch : Nat) : Int) + (dx : Int)) = true := by
      unfold fitsInt
      simp only [decide_eq_true_eq]
      omega
    rw [ed, es, if_pos hfit, e0]
    have e1 : ((ystart * dstPitch : Nat) : Int) + (dx : Int) =
        ((ystart * dstPitch + dx : Nat) : Int) := by push_cast; rfl
    have e2 : ((ystart * srcPitch : Nat) : Int) + (dx : Int) =
        ((ystart * srcPitch + dx : Nat) : Int) := by push_cast; rfl
    rw [e1, e2]
    exact h1
  · intro y hy1 hy2 k hk
    have := hrows (y - ystart) (by omega) k hk
    have ey : y = ystart + (y - ystart) := by omega
    have hb := (hrange y hy1 hy2 k hk).1
    refine ⟨?_, by rw [hlen]; exact hb⟩
    have ed : y * dstPitch = ystart * dstPitch + (y - ystart) * dstPitch := by
      rw [← Nat.add_mul, ← ey]
    have es : y * srcPitch = ystart * srcPitch + (y - ystart) * srcPitch := by
      rw [← Nat.add_mul, ← ey]
    rw [ed, es]
    have e1 : ystart * dstPitch + (y - ystart) * dstPitch + dx + k =
        ystart * dstPitch + dx + (y - ystart) * dstPitch + k := by omega
    have e2 : ystart * srcPitch + (y - ystart) * srcPitch + dx + k =
        ystart * srcPitch + dx + (y - ystart) * srcPitch + k := by omega
    rw [e1, e2]
    exact this
  · intro j hj
    apply hrest
    intro t ht k hk
    have := hj (ystart + t) (Nat.le_add_right _ _) (by omega) k hk
    rw [Nat.add_mul] at this
    omega

/-- C6 (amended), worked instance: two rows of two bytes at column 1 of two 3x2
buffers. -/
theorem rectCopyUnaligned_rows_witness :
    ∃ dst1, rectCopyUnaligned [0, 0, 0, 0, 0, 0] [1, 2, 3, 4, 5, 6] ((0 : Nat) : Int)
        ((2 : Nat) : Int) ((1 : Nat) : Int) ((3 : Nat) : Int) ((3 : Nat) : Int)
        ((2 : Nat) : Int) = some dst1 ∧
      dst1.length = ([0, 0, 0, 0, 0, 0] : List UInt8).length ∧
      (∀ y, 0 ≤ y → y < 2 → ∀ k, k < 2 →
        dst1[y * 3 + 1 + k]? = ([1, 2, 3, 4, 5, 6] : List UInt8)[y * 3 + 1 + k]? ∧
        y * 3 + 1 + k < dst1.length) ∧
      (∀ j, (∀ y, 0 ≤ y → y < 2 → ∀ k, k < 2 → j ≠ y * 3 + 1 + k) →
        dst1[j]? = ([0, 0, 0, 0, 0, 0] : List UInt8)[j]?) :=
  rectCopyUnaligned_rows [0, 0, 0, 0, 0, 0] [1, 2, 3, 4, 5, 6] 0 2 1 3 3 2 (by decide)
    (by decide) (by decide) (by decide)
    (by
      intro y _ hy k hk
      simp only [List.length_cons, List.length_nil]
      omega)

/-! ### Frame conditions of the capture path -/

theorem slotImports_append_other (j : Fin CACHE_SIZE) (calls : List Call) (c : Call)
    (h : ∀ p slot, c ≠ Call.convertResource p slot true) :
    slotImports j (calls ++ [c]) = slotImports j calls := by
  unfold slotImports
  rw [List.countP_append]
  cases c with
  | convertResource p slot ok =>
    cases ok with
    | true => exact absurd rfl (h p slot)
    | false => simp
  | _ => simp

theorem getCacheLoop_done_fence (srcTex : ID3D11Texture2D)
    (cache : Fin CACHE_SIZE → DDCacheInfo) :
    ∀ (n k free : Nat) (cache1 : Fin CACHE_SIZE → DDCacheInfo) (free1 : Nat),
      getCacheLoop srcTex cache n k free = ScanExit.done cache1 free1 →
      ∀ j, (cache1 j).fenceValue = (cache j).fenceValue := by
  intro n
  induction n with
  | zero =>
    intro k free cache1 free1 h j
    rw [getCacheLoop] at h
    injection h with h1 _
    rw [← h1]
  | succ n ih =>
    intro k free cache1 free1 h j
    rw [getCacheLoop] at h
    dsimp only at h
    split_ifs at h with hk hr hp hf
    · exact ih _ _ _ _ h j
    · exact ih _ _ _ _ h j
    · injection h with h1 _
      rw [← h1]
      by_cases hj : j = ⟨k, hk⟩
      · subst hj
        simp only [Function.update_same]
      · simp only [Function.update_noteq hj]
    · injection h with h1 _
      rw [← h1]

theorem getCacheLoop_hit_ready (srcTex : ID3D11Texture2D)
    (cache : Fin CACHE_SIZE → DDCacheInfo) :
    ∀ (n k free : Nat) (i : Fin CACHE_SIZE),
      getCacheLoop srcTex cache n k free = ScanExit.hit i → (cache i).ready = true := by
  intro n
  induction n with
  | zero =>
    intro k free i h
    rw [getCacheLoop] at h
    cases h
  | succ n ih =>
    intro k free i h
    rw [getCacheLoop] at h
    dsimp only at h
    split_ifs at h with hk hr hp hf
    · exact ih _ _ _ h
    · exact ih _ _ _ h
    · injection h with h1
      rw [← h1]
      simpa using hr

/-- What `d12_dd_getCache` may change: only the cache and the call record; it
returns true exactly with a non-null result, which is a ready slot; and each
slot either keeps its fence value with no import recorded for it, or is the
returned slot, freshly imported with fence value zero. -/
theorem getCache_frame (o : ImportOutcome) (srcTex : ID3D11Texture2D) (this : DDInstance) :
    (d12_dd_getCache o srcTex this).2.2.release = this.release ∧
    (d12_dd_getCache o srcTex this).2.2.current = this.current ∧
    ((d12_dd_getCache o srcTex this).1 = true →
      ∃ i, (d12_dd_getCache o srcTex this).2.1 = some i ∧
        ((d12_dd_getCache o srcTex this).2.2.cache i).ready = true) ∧
    ((d12_dd_getCache o srcTex this).1 = false → (d12_dd_getCache o srcTex this).2.1 = none) ∧
    ∀ j,
      (((d12_dd_getCache o srcTex this).2.2.cache j).fenceValue = (this.cache j).fenceValue ∧
        slotImports j (d12_dd_getCache o srcTex this).2.2.calls = slotImports j this.calls) ∨
      (((d12_dd_getCache o srcTex this).2.2.cache j).fenceValue = 0 ∧
        (d12_dd_getCache o srcTex this).2.1 = some j ∧
        slotImports j (d12_dd_getCache o srcTex this).2.2.calls =
          slotImports j this.calls + 1) := by
  cases hloop : getCacheLoop srcTex this.cache CACHE_SIZE 0 CACHE_SIZE with
  | hit i =>
    have hg : d12_dd_getCache o srcTex this = (true, some i, this) := by
      unfold d12_dd_getCache
      rw [hloop]
    rw [hg]
    exact ⟨rfl, rfl, fun _ => ⟨i, rfl, getCacheLoop_hit_ready srcTex this.cache _ _ _ i hloop⟩,
      fun h => absurd h (by simp), fun j => Or.inl ⟨rfl, rfl⟩⟩
  | done cache1 free1 =>
    have hf := getCacheLoop_done_fence srcTex this.cache _ _ _ _ _ hloop
    by_cases h1 : free1 = CACHE_SIZE
    · have hg : d12_dd_getCache o srcTex this = (false, none, { this with cache := cache1 }) := by
        unfold d12_dd_getCache
        rw [hloop]
        simp only [h1, if_true]
      rw [hg]
      exact ⟨rfl, rfl, fun h => absurd h (by simp), fun _ => rfl, fun j => Or.inl ⟨hf j, rfl⟩⟩
    · by_cases h2 : free1 < CACHE_SIZE
      · have hg : d12_dd_getCache o srcTex this =
            (if (d12_dd_convertResource o srcTex (cache1 ⟨free1, h2⟩)).1 = false then
              (false, none,
                { this with
                  cache := Function.update cache1 ⟨free1, h2⟩
                    (d12_dd_convertResource o srcTex (cache1 ⟨free1, h2⟩)).2
                  calls := this.calls ++ [Call.convertResource srcTex.ptr ⟨free1, h2⟩
                    (d12_dd_convertResource o srcTex (cache1 ⟨free1, h2⟩)).1] })
            else
              (true, some ⟨free1, h2⟩,
                { this with
                  cache := Function.update cache1 ⟨free1, h2⟩
                    (d12_dd_convertResource o srcTex (cache1 ⟨free1, h2⟩)).2
                  calls := this.calls ++ [Call.convertResource srcTex.ptr ⟨free1, h2⟩
                    (d12_dd_convertResource o srcTex (cache1 ⟨free1, h2⟩)).1] })) := by
          unfold d12_dd_getCache
          rw [hloop]
          simp only [h1, if_false, h2, dite_true]
        rw [hg]
        by_cases h3 : (d12_dd_convertResource o srcTex (cache1 ⟨free1, h2⟩)).1 = false
        · have hfail := convertResource_fail o srcTex (cache1 ⟨free1, h2⟩) h3
          rw [if_pos h3]
          refine ⟨rfl, rfl, fun h => absurd h (by simp), fun _ => rfl, fun j => Or.inl ⟨?_, ?_⟩⟩
          · simp only [hfail]
            by_cases hj : j = ⟨free1, h2⟩
            · subst hj
              simp only [Function.update_same]
              exact hf _
            · simp only [Function.update_noteq hj]
              exact hf j
          · simp only [h3]
            exact slotImports_append_other j _ _ (by intro p slot h; cases h)
        · have hok : (d12_dd_convertResource o srcTex (cache1 ⟨free1, h2⟩)).1 = true := by
            simpa using h3
          have hconv := convertResource_ok o srcTex (cache1 ⟨free1, h2⟩) hok
          rw [if_neg h3]
          refine ⟨rfl, rfl, fun _ => ⟨⟨free1, h2⟩, rfl, ?_⟩, fun h => absurd h (by simp),
            fun j => ?_⟩
          · simp only [Function.update_same, hconv]
          · by_cases hj : j = ⟨free1, h2⟩
            · subst hj
              right
              refine ⟨?_, rfl, ?_⟩
              · simp only [Function.update_same, hconv]
              · simp [slotImports, List.countP_append, hok]
            · left
              refine ⟨?_, ?_⟩
              · simp only [Function.update_noteq hj]
                exact hf j
              · have hj' : ¬ ((⟨free1, h2⟩ : Fin CACHE_SIZE) = j) := fun e => hj e.symm
                simp [slotImports, List.countP_append, hj']
      · have hg : d12_dd_getCache o srcTex this = (false, none, { this with cache := cache1 }) := by
          unfold d12_dd_getCache
          rw [hloop]
          simp only [h1, if_false, h2, dite_false]
        rw [hg]
        exact ⟨rfl, rfl, fun h => absurd h (by simp), fun _ => rfl, fun j => Or.inl ⟨hf j, rfl⟩⟩

theorem handleFrameUpdate_qi (res : IDXGIResource) (o : ImportOutcome) (this : DDInstance)
    (hq : FAILED res.queryInterface = true) :
    d12_dd_handleFrameUpdate res o this = (false, this) := by
  unfold d12_dd_handleFrameUpdate
  simp only [hq, if_true]

theorem handleFrameUpdate_miss (res : IDXGIResource) (o : ImportOutcome) (this : DDInstance)
    (hq : FAILED res.queryInterface = false)
    (h1 : (d12_dd_getCache o res.srcTex this).1 = false) :
    d12_dd_handleFrameUpdate res o this =
      (false, { (d12_dd_getCache o res.srcTex this).2.2 with
                current := (d12_dd_getCache o res.srcTex this).2.1 }) := by
  unfold d12_dd_handleFrameUpdate
  simp only [hq, Bool.false_eq_true, if_false, h1, if_true]

theorem handleFrameUpdate_ok (res : IDXGIResource) (o : ImportOutcome) (this : DDInstance)
    (hq : FAILED res.queryInterface = false) (i : Fin CACHE_SIZE)
    (h1 : (d12_dd_getCache o res.srcTex this).1 = true)
    (hi : (d12_dd_getCache o res.srcTex this).2.1 = some i) :
    d12_dd_handleFrameUpdate res o this =
      (true,
        { (d12_dd_getCache o res.srcTex this).2.2 with
          current := some i
          cache := Function.update (d12_dd_getCache o res.srcTex this).2.2.cache i
            { (d12_dd_getCache o res.srcTex this).2.2.cache i with
              fenceValue :=
                (((d12_dd_getCache o res.srcTex this).2.2.cache i).fenceValue + 1) % 2 ^ 64 }
          calls := (d12_dd_getCache o res.srcTex this).2.2.calls ++
            [Call.signal ((d12_dd_getCache o res.srcTex this).2.2.cache i).fence
              ((((d12_dd_getCache o res.srcTex this).2.2.cache i).fenceValue + 1) % 2 ^ 64)] }) := by
  unfold d12_dd_handleFrameUpdate
  simp only [hq, Bool.false_eq_true, if_false, h1, hi, Bool.true_eq_false]

theorem FenceStep_refl (a : DDInstance) (j : Fin CACHE_SIZE) : FenceStep a a j :=
  Or.inl ⟨Nat.le_refl _, rfl⟩

theorem FenceStep_congr (a b a1 b1 : DDInstance) (j : Fin CACHE_SIZE)
    (ha : a1.cache = a.cache) (ha' : slotImports j a1.calls = slotImports j a.calls)
    (hb : b1.cache = b.cache) (hb' : slotImports j b1.calls = slotImports j b.calls)
    (h : FenceStep a b j) : FenceStep a1 b1 j := by
  unfold FenceStep at h ⊢
  rw [ha, ha', hb, hb']
  exact h

/-- What `d12_dd_handleFrameUpdate` does to the session: on success `current`
is a ready slot; each slot whose counter is not at its maximum takes a
`FenceStep`. -/
theorem handleFrameUpdate_frame (res : IDXGIResource) (o : ImportOutcome) (this : DDInstance) :
    ((d12_dd_handleFrameUpdate res o this).1 = true →
      ∃ i, (d12_dd_handleFrameUpdate res o this).2.current = some i ∧
        ((d12_dd_handleFrameUpdate res o this).2.cache i).ready = true) ∧
    (d12_dd_handleFrameUpdate res o this).2.release = this.release ∧
    ∀ j, (this.cache j).fenceValue + 1 < 2 ^ 64 →
      FenceStep this (d12_dd_handleFrameUpdate res o this).2 j := by
  obtain ⟨hrel, _, htrue, hfalse, hslots⟩ := getCache_frame o res.srcTex this
  by_cases hq : FAILED res.queryInterface = true
  · rw [handleFrameUpdate_qi res o this hq]
    exact ⟨fun h => absurd h (by simp), rfl, fun j _ => FenceStep_refl this j⟩
  · have hq' : FAILED res.queryInterface = false := by simpa using hq
    by_cases h1 : (d12_dd_getCache o res.srcTex this).1 = false
    · rw [handleFrameUpdate_miss res o this hq' h1]
      refine ⟨fun h => absurd h (by simp), hrel, fun j _ => ?_⟩
      rcases hslots j with ⟨hfv, himp⟩ | ⟨_, hres, _⟩
      · exact Or.inl ⟨Nat.le_of_eq hfv.symm, himp⟩
      · rw [hfalse h1] at hres
        cases hres
    · have h1' : (d12_dd_getCache o res.srcTex this).1 = true := by simpa using h1
      obtain ⟨i, hi, hready⟩ := htrue h1'
      rw [handleFrameUpdate_ok res o this hq' i h1' hi]
      refine ⟨fun _ => ⟨i, rfl, ?_⟩, hrel, fun j hj => ?_⟩
      · simp only [Function.update_same]
        exact hready
      · have hsig : ∀ l : List Call, ∀ f v, slotImports j (l ++ [Call.signal f v]) =
            slotImports j l :=
          fun l f v => slotImports_append_other j l _ (by intro p slot h; cases h)
        by_cases hji : j = i
        · subst hji
          rcases hslots j with ⟨hfv, himp⟩ | ⟨hfv, _, himp⟩
          · left
            refine ⟨?_, ?_⟩
            · simp only [Function.update_same, hfv]
              rw [Nat.mod_eq_of_lt hj]
              exact Nat.le_succ _
            · simp only [hsig]
              exact himp
          · right
            refine ⟨?_, ?_⟩
            · simp only [Function.update_same, hfv]
              rfl
            · simp only [hsig]
              exact himp
        · rcases hslots j with ⟨hfv, himp⟩ | ⟨_, hres, _⟩
          · left
            refine ⟨?_, ?_⟩
            · simp only [Function.update_noteq hji]
              exact Nat.le_of_eq hfv.symm
            · simp only [hsig]
              exact himp
          · rw [hi] at hres
            injection hres with hres
            exact absurd hres.symm hji

theorem handlePointerShape_frame :
    ∀ (qs : List ShapeQuery) (pointer : CapturePointer) (size : Nat) (changed : Bool)
      (this t : DDInstance) (p : CapturePointer) (c : Bool),
      d12_dd_handlePointerShape qs pointer size changed this = some (t, p, c) →
      t.cache = this.cache ∧ t.current = this.current ∧ t.calls = this.calls ∧
        t.release = this.release := by
  intro qs
  induction qs with
  | nil =>
    intro pointer size changed this t p c h
    rw [d12_dd_handlePointerShape] at h
    cases h
  | cons q qs ih =>
    intro pointer size changed this t p c h
    rw [d12_dd_handlePointerShape] at h
    dsimp only at h
    have hgrow : ∀ u : DDInstance,
        u = (if this.shapeBufferSize < size then
          { this with shapeBuffer := true, shapeBufferSize := size % 2 ^ 32 } else this) →
        u.cache = this.cache ∧ u.current = this.current ∧ u.calls = this.calls ∧
          u.release = this.release := by
      intro u hu
      rw [hu]
      split_ifs <;> exact ⟨rfl, rfl, rfl, rfl⟩
    generalize hu : (if this.shapeBufferSize < size then
          ({ this with shapeBuffer := true, shapeBufferSize := size % 2 ^ 32 } : DDInstance)
        else this) = u at h
    obtain ⟨hu1, hu2, hu3, hu4⟩ := hgrow u hu.symm
    split_ifs at h with ha hb hc
    · injection h with h
      injection h with h1 _
      rw [← h1]
      exact ⟨rfl, rfl, rfl, rfl⟩
    · obtain ⟨k1, k2, k3, k4⟩ := ih _ _ _ _ _ _ _ h
      exact ⟨k1.trans hu1, k2.trans hu2, k3.trans hu3, k4.trans hu4⟩
    · injection h with h
      injection h with h1 _
      rw [← h1]
      exact ⟨hu1, hu2, hu3, hu4⟩
    all_goals
      split at h
      all_goals
        injection h with h
        injection h with h1 _
        rw [← h1]
        exact ⟨hu1, hu2, hu3, hu4⟩

theorem releaseHeldFrame_frame (this : DDInstance) :
    (releaseHeldFrame this).cache = this.cache ∧
    (releaseHeldFrame this).current = this.current ∧
    ∀ j, slotImports j (releaseHeldFrame this).calls = slotImports j this.calls := by
  unfold releaseHeldFrame
  split_ifs
  · exact ⟨rfl, rfl, fun j => slotImports_append_other j _ _ (by intro p slot h; cases h)⟩
  · exact ⟨rfl, rfl, fun _ => rfl⟩

/-- The pointer block leaves the cache, `current` and `release` alone, and calls
`d12_updatePointer` exactly when `postPointer` is set. -/
theorem pointerBlock_frame (e : AcquireOutcome) (this t : DDInstance) (p : CapturePointer)
    (pp ps : Bool) (h : pointerBlock e this = some (t, p, pp, ps)) :
    t.cache = this.cache ∧ t.current = this.current ∧ t.release = this.release ∧
    (t.calls = if pp = true then this.calls ++ [Call.updatePointer p t.shapeBufferSize]
      else this.calls) ∧
    ∀ j, slotImports j t.calls = slotImports j this.calls := by
  unfold pointerBlock at h
  dsimp only at h
  have hmv : ∀ mv : DDInstance × CapturePointer × Bool,
      mv = (if e.frameInfo.LastMouseUpdateTime ≠ 0 then
          d12_dd_handlePointerMovement e.frameInfo.PointerPosition zeroPointer false this
        else (this, zeroPointer, false)) →
      mv.1.cache = this.cache ∧ mv.1.current = this.current ∧ mv.1.calls = this.calls ∧
        mv.1.release = this.release := by
    intro mv hmv
    rw [hmv]
    split_ifs <;> exact ⟨rfl, rfl, rfl, rfl⟩
  generalize hg : (if e.frameInfo.LastMouseUpdateTime ≠ 0 then
      d12_dd_handlePointerMovement e.frameInfo.PointerPosition zeroPointer false this
    else (this, zeroPointer, false)) = mv at h
  obtain ⟨m1, m2, m3, m4⟩ := hmv mv hg.symm
  have hsh : ∀ (u : DDInstance) (q : CapturePointer) (c : Bool),
      (if e.frameInfo.PointerShapeBufferSize > 0 then
          d12_dd_handlePointerShape e.shape mv.2.1 e.frameInfo.PointerShapeBufferSize false mv.1
        else some (mv.1, mv.2.1, false)) = some (u, q, c) →
      u.cache = this.cache ∧ u.current = this.current ∧ u.calls = this.calls ∧
        u.release = this.release := by
    intro u q c hu
    split_ifs at hu
    · obtain ⟨k1, k2, k3, k4⟩ := handlePointerShape_frame _ _ _ _ _ _ _ _ hu
      exact ⟨k1.trans m1, k2.trans m2, k3.trans m3, k4.trans m4⟩
    · injection hu with hu
      injection hu with hu1 _
      rw [← hu1]
      exact ⟨m1, m2, m3, m4⟩
  generalize hg2 : (if e.frameInfo.PointerShapeBufferSize > 0 then
      d12_dd_handlePointerShape e.shape mv.2.1 e.frameInfo.PointerShapeBufferSize false mv.1
    else some (mv.1, mv.2.1, false)) = sh at h hsh
  cases sh with
  | none => cases h
  | some q =>
    obtain ⟨u, q, c⟩ := q
    obtain ⟨u1, u2, u3, u4⟩ := hsh u q c rfl
    dsimp only at h
    split_ifs at h with hpp
    · injection h with h
      injection h with h1 h2
      injection h2 with h2 h3
      injection h3 with h3 h4
      subst h1 h2 h3
      refine ⟨u1, u2, u4, ?_, fun j => ?_⟩
      · simp only [hpp, if_true, u3]
      · simp only [u3]
        exact slotImports_append_other j _ _ (by intro p slot h; cases h)
    · injection h with h
      injection h with h1 h2
      injection h2 with h2 h3
      injection h3 with h3 h4
      subst h1 h2 h3
      refine ⟨u1, u2, u4, ?_, fun j => by rw [u3]⟩
      simp only [hpp, if_false, u3]
      rfl

/-- The failing-acquire branch of a pass (dd.c 317-333). -/
theorem capturePass_fail (e : AcquireOutcome) (this : DDInstance)
    (hres : d12_dd_hResultToCaptureResult e.hr ≠ CAPTURE_RESULT_OK) :
    capturePass e this =
      some (PassExit.exit
        (if e.hr = DXGI_ERROR_ACCESS_LOST ∧ FAILED e.removedReason = true then
          CAPTURE_RESULT_ERROR
        else d12_dd_hResultToCaptureResult e.hr)
        (if e.hr = DXGI_ERROR_ACCESS_LOST then
          { releaseHeldFrame this with
            calls := (releaseHeldFrame this).calls ++ [Call.removedReason] }
        else releaseHeldFrame this)) := by
  unfold capturePass
  simp only [hres, ne_eq, not_false_eq_true, if_true]
  by_cases h1 : e.hr = DXGI_ERROR_ACCESS_LOST
  · by_cases h2 : FAILED e.removedReason = true
    · simp only [h1, h2, if_true, and_self]
    · simp only [h1, h2, if_true, if_false, and_false, Bool.false_eq_true]
  · simp only [h1, if_false, false_and]

/-- What one pass does to the session. -/
theorem capturePass_frame (e : AcquireOutcome) (this : DDInstance) (x : PassExit)
    (h : capturePass e this = some x) :
    (∀ j, (this.cache j).fenceValue + 1 < 2 ^ 64 → FenceStep this x.inst j) ∧
    (∀ t, x = PassExit.retry t →
      t.cache = this.cache ∧ t.current = this.current ∧
        ∀ j, slotImports j t.calls = slotImports j this.calls) ∧
    (∀ r t, x = PassExit.exit r t →
      (r = CAPTURE_RESULT_OK → ∃ i, t.current = some i ∧ (t.cache i).ready = true) ∧
      (r ≠ CAPTURE_RESULT_OK → r ≠ CAPTURE_RESULT_ERROR → t.current = this.current)) := by
  obtain ⟨r1, r2, r3⟩ := releaseHeldFrame_frame this
  by_cases hres : d12_dd_hResultToCaptureResult e.hr ≠ CAPTURE_RESULT_OK
  · rw [capturePass_fail e this hres] at h
    injection h with h
    subst h
    have hcache : ∀ u : DDInstance,
        u = (if e.hr = DXGI_ERROR_ACCESS_LOST then
          { releaseHeldFrame this with
            calls := (releaseHeldFrame this).calls ++ [Call.removedReason] }
        else releaseHeldFrame this) →
        u.cache = this.cache ∧ u.current = this.current ∧
          ∀ j, slotImports j u.calls = slotImports j this.calls := by
      intro u hu
      rw [hu]
      split_ifs
      · exact ⟨r1, r2, fun j =>
          (slotImports_append_other j _ _ (by intro p slot h; cases h)).trans (r3 j)⟩
      · exact ⟨r1, r2, r3⟩
    obtain ⟨c1, c2, c3⟩ := hcache _ rfl
    refine ⟨fun j _ => ?_, fun t ht => (by cases ht), fun r t hrt => ?_⟩
    · exact FenceStep_congr this this _ _ j rfl rfl c1 (c3 j) (FenceStep_refl this j)
    · injection hrt with hr ht
      subst hr ht
      refine ⟨fun hok => ?_, fun _ _ => c2⟩
      split_ifs at hok
      exact absurd hok hres
  · have hok : d12_dd_hResultToCaptureResult e.hr = CAPTURE_RESULT_OK := by
      simpa using hres
    unfold capturePass at h
    simp only [hok, ne_eq, not_true_eq_false, if_false] at h
    have hfu : ∀ fu : Bool × DDInstance,
        fu = (if e.frameInfo.LastPresentTime ≠ 0 then
            d12_dd_handleFrameUpdate e.res e.convert { releaseHeldFrame this with release := true }
          else (true, { releaseHeldFrame this with release := true })) →
        (∀ j, (this.cache j).fenceValue + 1 < 2 ^ 64 → FenceStep this fu.2 j) ∧
        (e.frameInfo.LastPresentTime = 0 → fu.2.cache = this.cache ∧
          fu.2.current = this.current ∧
          ∀ j, slotImports j fu.2.calls = slotImports j this.calls) ∧
        (e.frameInfo.LastPresentTime ≠ 0 → fu.1 = true →
          ∃ i, fu.2.current = some i ∧ (fu.2.cache i).ready = true) := by
      intro fu hfu
      rw [hfu]
      by_cases hpt : e.frameInfo.LastPresentTime = 0
      · rw [if_neg (not_not.mpr hpt)]
        refine ⟨fun j _ => ?_, fun _ => ⟨r1, r2, r3⟩, fun hne => absurd hpt hne⟩
        exact FenceStep_congr this this _ _ j rfl rfl r1 (r3 j) (FenceStep_refl this j)
      · rw [if_pos hpt]
        obtain ⟨f1, _, f3⟩ := handleFrameUpdate_frame e.res e.convert
          { releaseHeldFrame this with release := true }
        refine ⟨fun j hj => ?_, fun h0 => absurd h0 hpt, fun _ h1 => f1 h1⟩
        have hj' : (({ releaseHeldFrame this with release := true } : DDInstance).cache j).fenceValue
            + 1 < 2 ^ 64 := by
          show ((releaseHeldFrame this).cache j).fenceValue + 1 < 2 ^ 64
          rw [r1]
          exact hj
        exact FenceStep_congr _ _ this _ j (by show this.cache = (releaseHeldFrame this).cache; rw [r1])
          (by show slotImports j this.calls = slotImports j (releaseHeldFrame this).calls; rw [r3 j])
          rfl rfl (f3 j hj')
    generalize hg : (if e.frameInfo.LastPresentTime ≠ 0 then
        d12_dd_handleFrameUpdate e.res e.convert { releaseHeldFrame this with release := true }
      else (true, { releaseHeldFrame this with release := true })) = fu at h
    obtain ⟨g1, g2, g3⟩ := hfu fu hg.symm
    by_cases hf1 : fu.1 = false
    · simp only [hf1, if_true] at h
      injection h with h
      subst h
      refine ⟨g1, fun t ht => (by cases ht), fun r t hrt => ?_⟩
      injection hrt with hr ht
      subst hr ht
      exact ⟨fun h => (by cases h), fun _ h => absurd rfl h⟩
    · simp only [hf1, if_false] at h
      have hf1' : fu.1 = true := by simpa using hf1
      cases hpb : pointerBlock e fu.2 with
      | none =>
        rw [hpb] at h
        cases h
      | some q =>
        obtain ⟨this3, p, pp, ps⟩ := q
        rw [hpb] at h
        dsimp only at h
        obtain ⟨b1, b2, _, _, b5⟩ := pointerBlock_frame e fu.2 this3 p pp ps hpb
        have hstep : ∀ j, (this.cache j).fenceValue + 1 < 2 ^ 64 → FenceStep this this3 j :=
          fun j hj => FenceStep_congr this fu.2 this this3 j rfl rfl b1 (b5 j) (g1 j hj)
        by_cases hpt : e.frameInfo.LastPresentTime = 0
        · simp only [hpt, if_true] at h
          injection h with h
          subst h
          obtain ⟨k1, k2, k3⟩ := g2 hpt
          refine ⟨hstep, fun t ht => ?_, fun r t hrt => (by cases hrt)⟩
          injection ht with ht
          subst ht
          exact ⟨b1.trans k1, b2.trans k2, fun j => (b5 j).trans (k3 j)⟩
        · simp only [hpt, if_false] at h
          injection h with h
          subst h
          refine ⟨hstep, fun t ht => (by cases ht), fun r t hrt => ?_⟩
          injection hrt with hr ht
          subst hr ht
          refine ⟨fun _ => ?_, fun h => absurd rfl h⟩
          obtain ⟨i, hi, hready⟩ := g3 hpt hf1'
          exact ⟨i, b2.trans hi, by rw [b1]; exact hready⟩

/-- What one `d12_dd_capture` call does to the session. -/
theorem capture_frame :
    ∀ (evs : List AcquireOutcome) (this : DDInstance) (r : CaptureResult) (t : DDInstance)
      (rest : List AcquireOutcome),
      d12_dd_capture evs this = some (r, t, rest) →
      (∀ j, (this.cache j).fenceValue + 1 < 2 ^ 64 → FenceStep this t j) ∧
      (r = CAPTURE_RESULT_OK → ∃ i, t.current = some i ∧ (t.cache i).ready = true) ∧
      (r ≠ CAPTURE_RESULT_OK → r ≠ CAPTURE_RESULT_ERROR → t.current = this.current) := by
  intro evs
  induction evs with
  | nil =>
    intro this r t rest h
    rw [d12_dd_capture] at h
    cases h
  | cons e es ih =>
    intro this r t rest h
    rw [d12_dd_capture] at h
    cases hp : capturePass e this with
    | none =>
      rw [hp] at h
      cases h
    | some x =>
      rw [hp] at h
      obtain ⟨p1, p2, p3⟩ := capturePass_frame e this x hp
      cases x with
      | exit r1 t1 =>
        dsimp only at h
        injection h with h
        injection h with h1 h2
        injection h2 with h2 h3
        subst h1 h2
        exact ⟨p1, p3 r1 t1 rfl⟩
      | retry t1 =>
        dsimp only at h
        obtain ⟨q1, q2, q3⟩ := p2 t1 rfl
        obtain ⟨i1, i2, i3⟩ := ih t1 r t rest h
        refine ⟨fun j hj => ?_, i2, fun h1 h2 => (i3 h1 h2).trans q2⟩
        have hj' : (t1.cache j).fenceValue + 1 < 2 ^ 64 := by rw [q1]; exact hj
        exact FenceStep_congr t1 t this t j q1.symm (q3 j).symm rfl rfl (i1 j hj')

theorem retryPasses_capture :
    ∀ (pre : List AcquireOutcome) (this this1 : DDInstance) (evs : List AcquireOutcome),
      retryPasses pre this = some this1 →
      d12_dd_capture (pre ++ evs) this = d12_dd_capture evs this1 := by
  intro pre
  induction pre with
  | nil =>
    intro this this1 evs h
    rw [retryPasses] at h
    injection h with h
    rw [h]
    rfl
  | cons e es ih =>
    intro this this1 evs h
    rw [retryPasses] at h
    rw [List.cons_append, d12_dd_capture]
    cases hp : capturePass e this with
    | none =>
      rw [hp] at h
      cases h
    | some x =>
      rw [hp] at h
      cases x with
      | exit r1 t1 => cases h
      | retry t1 =>
        dsimp only at h ⊢
        exact ih t1 this1 evs h

theorem captureCalls_keep_current :
    ∀ (n : Nat) (evs : List AcquireOutcome) (this : DDInstance) (rs : List CaptureResult)
      (t : DDInstance) (rest : List AcquireOutcome),
      captureCalls n evs this = some (rs, t, rest) →
      CAPTURE_RESULT_ERROR ∉ rs → (∃ i, this.current = some i) → ∃ i, t.current = some i := by
  intro n
  induction n with
  | zero =>
    intro evs this rs t rest h _ hc
    rw [captureCalls] at h
    injection h with h
    injection h with h1 h2
    injection h2 with h2 _
    rw [← h2]
    exact hc
  | succ n ih =>
    intro evs this rs t rest h hne hc
    rw [captureCalls] at h
    cases hcap : d12_dd_capture evs this with
    | none =>
      rw [hcap] at h
      cases h
    | some x =>
      obtain ⟨r1, t1, rest1⟩ := x
      rw [hcap] at h
      dsimp only at h
      cases hrec : captureCalls n rest1 t1 with
      | none =>
        rw [hrec] at h
        cases h
      | some y =>
        obtain ⟨rs2, t2, rest2⟩ := y
        rw [hrec] at h
        dsimp only at h
        injection h with h
        injection h with h1 h2
        injection h2 with h2 _
        subst h1 h2
        obtain ⟨_, c2, c3⟩ := capture_frame evs this r1 t1 rest1 hcap
        have hr1 : r1 ≠ CAPTURE_RESULT_ERROR := fun e => hne (by rw [e]; exact List.mem_cons_self _ _)
        have hrs2 : CAPTURE_RESULT_ERROR ∉ rs2 := fun hm => hne (List.mem_cons_of_mem _ hm)
        have hc1 : ∃ i, t1.current = some i := by
          by_cases hok : r1 = CAPTURE_RESULT_OK
          · obtain ⟨i, hi, _⟩ := c2 hok
            exact ⟨i, hi⟩
          · rw [c3 hok hr1]
            exact hc
        exact ih rest1 t1 rs2 t2 rest2 hrec hrs2 hc1

theorem captureCalls_current_after_ok :
    ∀ (n : Nat) (evs : List AcquireOutcome) (this : DDInstance) (rs : List CaptureResult)
      (t : DDInstance) (rest : List AcquireOutcome) (pre post : List CaptureResult),
      captureCalls n evs this = some (rs, t, rest) →
      rs = pre ++ CAPTURE_RESULT_OK :: post →
      CAPTURE_RESULT_ERROR ∉ post → ∃ i, t.current = some i := by
  intro n
  induction n with
  | zero =>
    intro evs this rs t rest pre post h hrs _
    rw [captureCalls] at h
    injection h with h
    injection h with h1 _
    rw [← h1] at hrs
    cases pre <;> cases hrs
  | succ n ih =>
    intro evs this rs t rest pre post h hrs hpost
    rw [captureCalls] at h
    cases hcap : d12_dd_capture evs this with
    | none =>
      rw [hcap] at h
      cases h
    | some x =>
      obtain ⟨r1, t1, rest1⟩ := x
      rw [hcap] at h
      dsimp only at h
      cases hrec : captureCalls n rest1 t1 with
      | none =>
        rw [hrec] at h
        cases h
      | some y =>
        obtain ⟨rs2, t2, rest2⟩ := y
        rw [hrec] at h
        dsimp only at h
        injection h with h
        injection h with h1 h2
        injection h2 with h2 _
        subst h1 h2
        cases pre with
        | nil =>
          rw [List.nil_append] at hrs
          injection hrs with e1 e2
          subst e1 e2
          obtain ⟨_, c2, _⟩ := capture_frame evs this _ t1 rest1 hcap
          obtain ⟨i, hi, _⟩ := c2 rfl
          exact captureCalls_keep_current n rest1 t1 rs2 t2 rest2 hrec hpost ⟨i, hi⟩
        | cons p pre1 =>
          rw [List.cons_append] at hrs
          injection hrs with _ e2
          exact ih rest1 t1 rs2 t2 rest2 pre1 post hrec e2 hpost

/-! ### The passes of a capture that returns OK -/

theorem hResult_ok (status : HRESULT)
    (h : d12_dd_hResultToCaptureResult status = CAPTURE_RESULT_OK) : status = S_OK := by
  unfold d12_dd_hResultToCaptureResult at h
  split_ifs at h with h1
  exact h1

/-- A pass whose acquire succeeds without a new image runs the pointer block and
goes back to `retry`. -/
theorem capturePass_no_image (e : AcquireOutcome) (this : DDInstance)
    (hhr : e.hr = S_OK) (hpt : e.frameInfo.LastPresentTime = 0) :
    capturePass e this =
      (pointerBlock e { releaseHeldFrame this with release := true }).map
        (fun x => PassExit.retry x.1) := by
  have hok : d12_dd_hResultToCaptureResult e.hr = CAPTURE_RESULT_OK := by
    rw [hhr]
    rfl
  unfold capturePass
  simp only [hok, ne_eq, not_true_eq_false, if_false, hpt, Bool.true_eq_false, if_true]
  cases pointerBlock e { releaseHeldFrame this with release := true } with
  | none => rfl
  | some x => rfl

/-- A pass that goes back to `retry` had a successful acquire without a new
image, and leaves the frame held. -/
theorem capturePass_retry_event (e : AcquireOutcome) (this t : DDInstance)
    (h : capturePass e this = some (PassExit.retry t)) :
    e.hr = S_OK ∧ e.frameInfo.LastPresentTime = 0 ∧ t.release = true := by
  by_cases hres : d12_dd_hResultToCaptureResult e.hr ≠ CAPTURE_RESULT_OK
  · rw [capturePass_fail e this hres] at h
    cases h
  · have hok : d12_dd_hResultToCaptureResult e.hr = CAPTURE_RESULT_OK := by simpa using hres
    have hhr := hResult_ok e.hr hok
    by_cases hpt : e.frameInfo.LastPresentTime = 0
    · rw [capturePass_no_image e this hhr hpt] at h
      cases hpb : pointerBlock e { releaseHeldFrame this with release := true } with
      | none =>
        rw [hpb] at h
        cases h
      | some x =>
        obtain ⟨u, p, pp, ps⟩ := x
        rw [hpb] at h
        simp only [Option.map_some', Option.some.injEq, PassExit.retry.injEq] at h
        obtain ⟨_, _, b3, _, _⟩ := pointerBlock_frame e _ u p pp ps hpb
        rw [← h]
        exact ⟨hhr, hpt, b3⟩
    · exfalso
      unfold capturePass at h
      simp only [hok, ne_eq, not_true_eq_false, if_false, hpt, not_false_eq_true, if_true] at h
      split_ifs at h
      · cases h
      · split at h <;> cases h

/-- A pass that leaves with OK: the acquire answered `S_OK` with a new image,
the texture query and the cache lookup succeeded, `current` is the ready slot
the lookup returned, that slot's fence value is the looked-up one plus one as
a `UINT64`, the signal with that value is recorded right after the lookup's
calls, and the frame is held. -/
theorem capturePass_exit_ok (e : AcquireOutcome) (this t : DDInstance)
    (h : capturePass e this = some (PassExit.exit CAPTURE_RESULT_OK t)) :
    e.hr = S_OK ∧ e.frameInfo.LastPresentTime ≠ 0 ∧ FAILED e.res.queryInterface = false ∧
    (passLookup e this).1 = true ∧
    ∃ i, (passLookup e this).2.1 = some i ∧
      t.current = some i ∧ (t.cache i).ready = true ∧
      (t.cache i).fence = ((passLookup e this).2.2.cache i).fence ∧
      (t.cache i).fenceValue = (((passLookup e this).2.2.cache i).fenceValue + 1) % 2 ^ 64 ∧
      (∀ j, j ≠ i → t.cache j = (passLookup e this).2.2.cache j) ∧
      (∃ tail, t.calls = (passLookup e this).2.2.calls ++
        Call.signal (t.cache i).fence (t.cache i).fenceValue :: tail) ∧
      t.release = true := by
  by_cases hres : d12_dd_hResultToCaptureResult e.hr ≠ CAPTURE_RESULT_OK
  · rw [capturePass_fail e this hres] at h
    simp only [Option.some.injEq, PassExit.exit.injEq] at h
    obtain ⟨h1, _⟩ := h
    split_ifs at h1
    exact absurd h1 hres
  · have hok : d12_dd_hResultToCaptureResult e.hr = CAPTURE_RESULT_OK := by simpa using hres
    have hhr := hResult_ok e.hr hok
    by_cases hpt : e.frameInfo.LastPresentTime = 0
    · rw [capturePass_no_image e this hhr hpt] at h
      cases hpb : pointerBlock e { releaseHeldFrame this with release := true } with
      | none =>
        rw [hpb] at h
        cases h
      | some x =>
        rw [hpb] at h
        cases h
    · unfold capturePass at h
      simp only [hok, ne_eq, not_true_eq_false, if_false, hpt, not_false_eq_true, if_true] at h
      by_cases hq : FAILED e.res.queryInterface = true
      · rw [handleFrameUpdate_qi _ _ _ hq] at h
        simp only [if_true] at h
        cases h
      · have hq' : FAILED e.res.queryInterface = false := by simpa using hq
        obtain ⟨grel, _, gtrue, _, _⟩ := getCache_frame e.convert e.res.srcTex
          { releaseHeldFrame this with release := true }
        by_cases h1 : (passLookup e this).1 = false
        · rw [handleFrameUpdate_miss _ _ _ hq' h1] at h
          simp only [if_true] at h
          cases h
        · have h1' : (passLookup e this).1 = true := by simpa using h1
          obtain ⟨i, hi, hready⟩ := gtrue h1'
          rw [handleFrameUpdate_ok _ _ _ hq' i h1' hi] at h
          simp only [Bool.true_eq_false, if_false] at h
          refine ⟨hhr, hpt, hq', h1', i, hi, ?_⟩
          generalize hfu : ({ (d12_dd_getCache e.convert e.res.srcTex
              { releaseHeldFrame this with release := true }).2.2 with
            current := some i
            cache := Function.update (d12_dd_getCache e.convert e.res.srcTex
                { releaseHeldFrame this with release := true }).2.2.cache i
              { (d12_dd_getCache e.convert e.res.srcTex
                  { releaseHeldFrame this with release := true }).2.2.cache i with
                fenceValue := (((d12_dd_getCache e.convert e.res.srcTex
                  { releaseHeldFrame this with release := true }).2.2.cache i).fenceValue + 1)
                    % 2 ^ 64 }
            calls := (d12_dd_getCache e.convert e.res.srcTex
                { releaseHeldFrame this with release := true }).2.2.calls ++
              [Call.signal ((d12_dd_getCache e.convert e.res.srcTex
                  { releaseHeldFrame this with release := true }).2.2.cache i).fence
                ((((d12_dd_getCache e.convert e.res.srcTex
                  { releaseHeldFrame this with release := true }).2.2.cache i).fenceValue + 1)
                    % 2 ^ 64)] } : DDInstance) = fu at h
          cases hpb : pointerBlock e fu with
          | none =>
            rw [hpb] at h
            cases h
          | some x =>
            obtain ⟨u, p, pp, ps⟩ := x
            rw [hpb] at h
            simp only [Option.some.injEq, PassExit.exit.injEq, true_and] at h
            subst h
            obtain ⟨b1, b2, b3, b4, _⟩ := pointerBlock_frame e fu u p pp ps hpb
            have hc : u.cache i =
                { (passLookup e this).2.2.cache i with
                  fenceValue := (((passLookup e this).2.2.cache i).fenceValue + 1) % 2 ^ 64 } := by
              rw [b1, ← hfu]
              simp only [Function.update_same]
              rfl
            refine ⟨?_, ?_, ?_, ?_, ?_, ?_, ?_⟩
            · rw [b2, ← hfu]
            · rw [hc]
              exact hready
            · rw [hc]
            · rw [hc]
            · intro j hj
              rw [b1, ← hfu]
              simp only [Function.update_noteq hj]
              rfl
            · rw [hc, b4]
              by_cases hpp : pp = true
              · rw [if_pos hpp, ← hfu]
                exact ⟨[Call.updatePointer p u.shapeBufferSize], by simp [passLookup]⟩
              · rw [if_neg hpp, ← hfu]
                exact ⟨[], rfl⟩
            · rw [b3, ← hfu]
              exact grel

theorem capture_last_pass :
    ∀ (evs : List AcquireOutcome) (this : DDInstance) (r : CaptureResult) (t : DDInstance)
      (rest : List AcquireOutcome),
      d12_dd_capture evs this = some (r, t, rest) →
      ∃ (pre : List AcquireOutcome) (e : AcquireOutcome) (this1 : DDInstance),
        evs = pre ++ e :: rest ∧ retryPasses pre this = some this1 ∧
        capturePass e this1 = some (PassExit.exit r t) := by
  intro evs
  induction evs with
  | nil =>
    intro this r t rest h
    rw [d12_dd_capture] at h
    cases h
  | cons e es ih =>
    intro this r t rest h
    rw [d12_dd_capture] at h
    cases hp : capturePass e this with
    | none =>
      rw [hp] at h
      cases h
    | some x =>
      rw [hp] at h
      cases x with
      | exit r1 t1 =>
        simp only [Option.some.injEq, Prod.mk.injEq] at h
        obtain ⟨h1, h2, h3⟩ := h
        subst h1 h2 h3
        exact ⟨[], e, this, rfl, rfl, hp⟩
      | retry t1 =>
        dsimp only at h
        obtain ⟨pre, e1, this1, hevs, hpre, hlast⟩ := ih t1 r t rest h
        refine ⟨e :: pre, e1, this1, ?_, ?_, hlast⟩
        · rw [hevs]
          rfl
        · rw [retryPasses, hp]
          exact hpre

theorem retryPasses_events :
    ∀ (pre : List AcquireOutcome) (this this1 : DDInstance),
      retryPasses pre this = some this1 →
      this1.cache = this.cache ∧
      ∀ p, p ∈ pre → p.hr = S_OK ∧ p.frameInfo.LastPresentTime = 0 := by
  intro pre
  induction pre with
  | nil =>
    intro this this1 h
    rw [retryPasses] at h
    injection h with h
    rw [h]
    exact ⟨rfl, fun p hp => absurd hp (List.not_mem_nil p)⟩
  | cons e es ih =>
    intro this this1 h
    rw [retryPasses] at h
    cases hp : capturePass e this with
    | none =>
      rw [hp] at h
      cases h
    | some x =>
      rw [hp] at h
      cases x with
      | exit r1 t1 => cases h
      | retry t1 =>
        dsimp only at h
        obtain ⟨c1, c2⟩ := ih t1 this1 h
        obtain ⟨e1, e2, _⟩ := capturePass_retry_event e this t1 hp
        obtain ⟨_, f2, _⟩ := capturePass_frame e this _ hp
        refine ⟨c1.trans (f2 t1 rfl).1, fun p hmem => ?_⟩
        rcases List.mem_cons.mp hmem with hpe | hpes
        · rw [hpe]
          exact ⟨e1, e2⟩
        · exact c2 p hpes

/-! ### The capture session contracts -/

/-- C7, counterexample: from the zeroed instance a first capture returns OK; a
second capture meets a new surface whose import fails, returns ERROR and
leaves `current` null, after which `d12_dd_sync` returns TIMEOUT although a
frame has been produced. -/
theorem sync_timeout_after_failed_lookup :
    (captureCalls 2 [imageEvent surfaceA goodImport, imageEvent surfaceC badImport]
        zeroInstance).map (fun x => (x.1, (d12_dd_sync (fun _ => 0) x.2.1).1)) =
      some ([CAPTURE_RESULT_OK, CAPTURE_RESULT_ERROR], CAPTURE_RESULT_TIMEOUT) := by
  decide

/-- C7 (amended): `d12_dd_sync` returns TIMEOUT exactly when `current` is null
and OK otherwise; after any sequence of `d12_dd_capture` calls in which one
returned OK and no later one returned ERROR, `d12_dd_sync` returns OK; and
when it returns OK it records a wait for `current.fenceValue` on the consumer
queue exactly when the fence's completed value is below `current.fenceValue`. -/
theorem sync_after_capture :
    (∀ (completed : Nat → Nat) (this : DDInstance),
      ((d12_dd_sync completed this).1 = CAPTURE_RESULT_TIMEOUT ↔ this.current = none) ∧
      ((d12_dd_sync completed this).1 = CAPTURE_RESULT_OK ↔ this.current ≠ none)) ∧
    (∀ (completed : Nat → Nat) (n : Nat) (evs : List AcquireOutcome) (this : DDInstance)
      (pre post : List CaptureResult),
      (captureCalls n evs this).map (fun x => x.1) = some (pre ++ CAPTURE_RESULT_OK :: post) →
      CAPTURE_RESULT_ERROR ∉ post →
      (captureCalls n evs this).map (fun x => (d12_dd_sync completed x.2.1).1) =
        some CAPTURE_RESULT_OK) ∧
    (∀ (completed : Nat → Nat) (this : DDInstance) (i : Fin CACHE_SIZE),
      this.current = some i →
      (d12_dd_sync completed this).1 = CAPTURE_RESULT_OK ∧
      (d12_dd_sync completed this).2.calls =
        if completed (this.cache i).fence < (this.cache i).fenceValue then
          this.calls ++ [Call.queueWait (this.cache i).d12Fence (this.cache i).fenceValue]
        else this.calls) := by
  have hsome : ∀ (completed : Nat → Nat) (this : DDInstance) (i : Fin CACHE_SIZE),
      this.current = some i →
      (d12_dd_sync completed this).1 = CAPTURE_RESULT_OK ∧
      (d12_dd_sync completed this).2.calls =
        if completed (this.cache i).fence < (this.cache i).fenceValue then
          this.calls ++ [Call.queueWait (this.cache i).d12Fence (this.cache i).fenceValue]
        else this.calls := by
    intro completed this i hi
    unfold d12_dd_sync
    rw [hi]
    dsimp only
    split_ifs <;> exact ⟨rfl, rfl⟩
  have hnone : ∀ (completed : Nat → Nat) (this : DDInstance), this.current = none →
      (d12_dd_sync completed this).1 = CAPTURE_RESULT_TIMEOUT := by
    intro completed this h
    unfold d12_dd_sync
    rw [h]
  refine ⟨fun completed this => ?_, ?_, hsome⟩
  · cases hc : this.current with
    | none =>
      have := hnone completed this hc
      rw [this]
      simp
    | some i =>
      have := (hsome completed this i hc).1
      rw [this]
      simp
  · intro completed n evs this pre post hrs hpost
    cases hcc : captureCalls n evs this with
    | none =>
      rw [hcc] at hrs
      cases hrs
    | some x =>
      obtain ⟨rs, t, rest⟩ := x
      rw [hcc] at hrs
      simp only [Option.map_some', Option.some.injEq] at hrs
      obtain ⟨i, hi⟩ := captureCalls_current_after_ok n evs this rs t rest pre post hcc hrs hpost
      simp only [Option.map_some', (hsome completed t i hi).1]

/-- C7 (amended), worked instance: a capture that returns OK followed by one
that times out, then `d12_dd_sync`. -/
theorem sync_after_capture_witness :
    (captureCalls 2 [imageEvent surfaceA goodImport, failedAcquire DXGI_ERROR_WAIT_TIMEOUT S_OK]
        zeroInstance).map (fun x => (d12_dd_sync (fun _ => 0) x.2.1).1) =
      some CAPTURE_RESULT_OK :=
  sync_after_capture.2.1 (fun _ => 0) 2
    [imageEvent surfaceA goodImport, failedAcquire DXGI_ERROR_WAIT_TIMEOUT S_OK] zeroInstance
    [] [CAPTURE_RESULT_TIMEOUT] (by decide) (by decide)

/-- C8, failing input: an acquired event that carries a pointer shape and no
pointer movement. The shape handler produces a shape update and sets
`postShape`, `postPointer` stays clear, and the pass records no
`d12_updatePointer` call (no call at all). -/
theorem shape_update_not_posted :
    (pointerBlock shapeEvent zeroInstance).map
        (fun x => (x.2.1.shapeUpdate, x.2.2.1, x.2.2.2, x.1.calls)) =
      some (true, false, true, []) ∧
    (capturePass shapeEvent zeroInstance).map (fun x => x.inst.calls) = some [] := by
  decide

/-- C9, counterexample: the acquire answers access-lost, which maps to REINIT,
the device-removed probe fails, and `d12_dd_capture` returns ERROR. -/
theorem capture_access_lost_device_removed :
    d12_dd_hResultToCaptureResult
        (failedAcquire DXGI_ERROR_ACCESS_LOST DXGI_ERROR_DEVICE_REMOVED).hr =
      CAPTURE_RESULT_REINIT ∧
    (d12_dd_capture [failedAcquire DXGI_ERROR_ACCESS_LOST DXGI_ERROR_DEVICE_REMOVED]
        zeroInstance).map (fun x => x.1) = some CAPTURE_RESULT_ERROR := by
  decide

/-- C9 (amended): when an acquire inside `d12_dd_capture` maps to a result
other than OK, in the first pass or after any number of passes that went
back to `retry`, the call returns there, consuming no further answer, with
the mapped result, except that access-lost with a failing device-removed
probe gives ERROR; access-lost with a succeeding probe gives REINIT. -/
theorem capture_failure_result (pre : List AcquireOutcome) (e : AcquireOutcome)
    (rest : List AcquireOutcome) (this this1 : DDInstance)
    (hpre : retryPasses pre this = some this1)
    (hres : d12_dd_hResultToCaptureResult e.hr ≠ CAPTURE_RESULT_OK) :
    (d12_dd_capture (pre ++ e :: rest) this).map (fun x => (x.1, x.2.2)) =
      some (if e.hr = DXGI_ERROR_ACCESS_LOST ∧ FAILED e.removedReason = true then
          CAPTURE_RESULT_ERROR
        else d12_dd_hResultToCaptureResult e.hr, rest) ∧
    (e.hr = DXGI_ERROR_ACCESS_LOST → FAILED e.removedReason = false →
      (d12_dd_capture (pre ++ e :: rest) this).map (fun x => x.1) =
        some CAPTURE_RESULT_REINIT) ∧
    (e.hr = DXGI_ERROR_ACCESS_LOST → FAILED e.removedReason = true →
      (d12_dd_capture (pre ++ e :: rest) this).map (fun x => x.1) =
        some CAPTURE_RESULT_ERROR) ∧
    (e.hr ≠ DXGI_ERROR_ACCESS_LOST →
      (d12_dd_capture (pre ++ e :: rest) this).map (fun x => x.1) =
        some (d12_dd_hResultToCaptureResult e.hr)) := by
  have hcap : d12_dd_capture (pre ++ e :: rest) this =
      some (if e.hr = DXGI_ERROR_ACCESS_LOST ∧ FAILED e.removedReason = true then
          CAPTURE_RESULT_ERROR
        else d12_dd_hResultToCaptureResult e.hr,
        if e.hr = DXGI_ERROR_ACCESS_LOST then
          { releaseHeldFrame this1 with
            calls := (releaseHeldFrame this1).calls ++ [Call.removedReason] }
        else releaseHeldFrame this1, rest) := by
    rw [retryPasses_capture pre this this1 _ hpre, d12_dd_capture,
      capturePass_fail e this1 hres]
  rw [hcap]
  refine ⟨rfl, fun h1 h2 => ?_, fun h1 h2 => ?_, fun h1 => ?_⟩
  · simp only [Option.map_some', h1, h2, Bool.false_eq_true, and_false, if_false]
    rfl
  · simp only [Option.map_some', h1, h2, and_self, if_true]
  · simp only [Option.map_some', h1, false_and, if_false]

/-- C9 (amended), worked instance: a wait timeout on the first acquire. -/
theorem capture_failure_result_witness :
    (d12_dd_capture ([] ++ failedAcquire DXGI_ERROR_WAIT_TIMEOUT S_OK :: []) zeroInstance).map
        (fun x => (x.1, x.2.2)) =
      some (if (failedAcquire DXGI_ERROR_WAIT_TIMEOUT S_OK).hr = DXGI_ERROR_ACCESS_LOST ∧
            FAILED (failedAcquire DXGI_ERROR_WAIT_TIMEOUT S_OK).removedReason = true then
          CAPTURE_RESULT_ERROR
        else d12_dd_hResultToCaptureResult (failedAcquire DXGI_ERROR_WAIT_TIMEOUT S_OK).hr, []) :=
  (capture_failure_result [] (failedAcquire DXGI_ERROR_WAIT_TIMEOUT S_OK) [] zeroInstance
    zeroInstance rfl (by decide)).1

/-- C10, counterexample: slot 0 holds the surface at address 7 with fence value
5; a capture of the same surface after a format change returns OK and leaves
the slot's fence value at 1. -/
theorem fence_reset_on_rebuild :
    (cachedA.cache 0).fenceValue = 5 ∧
    (d12_dd_capture [imageEvent surfaceB goodImport] cachedA).map
        (fun x => (x.1, (x.2.1.cache 0).fenceValue)) = some (CAPTURE_RESULT_OK, 1) := by
  decide

/-- C10 (amended): over a `d12_dd_capture` call that returns, for every slot
whose 64-bit counter is not at its maximum, either the fence value did not
decrease and no successful import into the slot was made, or exactly one
successful import into the slot was made (it was populated or rebuilt) and
its fence value is 1 afterwards. -/
theorem fence_monotone_unless_imported (evs : List AcquireOutcome) (this : DDInstance)
    (j : Fin CACHE_SIZE) (r : CaptureResult) (t : DDInstance) (rest : List AcquireOutcome)
    (hnowrap : (this.cache j).fenceValue + 1 < 2 ^ 64)
    (hret : d12_dd_capture evs this = some (r, t, rest)) :
    ((this.cache j).fenceValue ≤ (t.cache j).fenceValue ∧
      slotImports j t.calls = slotImports j this.calls) ∨
    ((t.cache j).fenceValue = 1 ∧ slotImports j t.calls = slotImports j this.calls + 1) :=
  (capture_frame evs this r t rest hret).1 j hnowrap

/-- C10 (amended), worked instance: the rebuild of slot 0 of `cachedA`, seen
from slot 1. -/
theorem fence_monotone_unless_imported_witness :
    (cachedA.cache 1).fenceValue + 1 < 2 ^ 64 ∧
    d12_dd_capture [imageEvent surfaceB goodImport] cachedA =
      some (CAPTURE_RESULT_OK, cachedAfterRebuild, []) ∧
    (((cachedA.cache 1).fenceValue ≤ (cachedAfterRebuild.cache 1).fenceValue ∧
      slotImports 1 cachedAfterRebuild.calls = slotImports 1 cachedA.calls) ∨
    ((cachedAfterRebuild.cache 1).fenceValue = 1 ∧
      slotImports 1 cachedAfterRebuild.calls = slotImports 1 cachedA.calls + 1)) :=
  ⟨by decide, rfl,
    fence_monotone_unless_imported [imageEvent surfaceB goodImport] cachedA 1 CAPTURE_RESULT_OK
      cachedAfterRebuild [] (by decide) rfl⟩

/-- C11, counterexample: slot 0 is ready, holds surface A and has the largest
`UINT64` as fence value; a capture of a new image of surface A returns OK with
`current` on slot 0, whose fence value is then 0, not at least 1. -/
theorem capture_ok_fence_wraps :
    (cachedAtMax.cache 0).ready = true ∧
    (cachedAtMax.cache 0).fenceValue = 2 ^ 64 - 1 ∧
    (d12_dd_capture [imageEvent surfaceA goodImport] cachedAtMax).map
        (fun x => (x.1, x.2.1.current, (x.2.1.cache 0).fenceValue)) =
      some (CAPTURE_RESULT_OK, some 0, 0) := by
  decide

/-- C11 (amended): if `d12_dd_capture` returns OK, the answers it consumed are
acquired events without a new image followed by a last one that answered
`S_OK` with a non-zero present time; the cache lookup for that one returned
true with a slot `i`; afterwards `current` is slot `i`, which is ready; its
fence value is the looked-up value plus one as a `UINT64` (so plus one, and at
least 1, unless the looked-up value was the largest `UINT64`), which is the
value before the call plus one or, after an import, 1; the signal of that
fence with that value is recorded right after the lookup; and `release` is
true. An acquired event without a new image never ends the call: its pass
goes back to `retry` with the frame held, where the held frame is released
before the next acquire. -/
theorem capture_ok_real_image :
    (∀ (evs : List AcquireOutcome) (this t : DDInstance) (rest : List AcquireOutcome),
      d12_dd_capture evs this = some (CAPTURE_RESULT_OK, t, rest) →
      ∃ (pre : List AcquireOutcome) (e : AcquireOutcome) (this1 : DDInstance)
        (i : Fin CACHE_SIZE),
        evs = pre ++ e :: rest ∧
        retryPasses pre this = some this1 ∧
        (∀ p, p ∈ pre → p.hr = S_OK ∧ p.frameInfo.LastPresentTime = 0) ∧
        e.hr = S_OK ∧ e.frameInfo.LastPresentTime ≠ 0 ∧
        (passLookup e this1).1 = true ∧ (passLookup e this1).2.1 = some i ∧
        t.current = some i ∧ (t.cache i).ready = true ∧
        (t.cache i).fenceValue =
          (((passLookup e this1).2.2.cache i).fenceValue + 1) % 2 ^ 64 ∧
        (((passLookup e this1).2.2.cache i).fenceValue + 1 < 2 ^ 64 →
          (t.cache i).fenceValue = ((passLookup e this1).2.2.cache i).fenceValue + 1 ∧
          1 ≤ (t.cache i).fenceValue) ∧
        ((t.cache i).fenceValue = ((this.cache i).fenceValue + 1) % 2 ^ 64 ∨
          (t.cache i).fenceValue = 1) ∧
        (∃ tail, t.calls = (passLookup e this1).2.2.calls ++
          Call.signal (t.cache i).fence (t.cache i).fenceValue :: tail) ∧
        t.release = true) ∧
    (∀ (e : AcquireOutcome) (this : DDInstance),
      e.hr = S_OK → e.frameInfo.LastPresentTime = 0 →
      (∀ r t, capturePass e this ≠ some (PassExit.exit r t)) ∧
      d12_dd_capture [e] this = none ∧
      (∀ t, capturePass e this = some (PassExit.retry t) →
        t.release = true ∧
        releaseHeldFrame t =
          { t with release := false, calls := t.calls ++ [Call.releaseFrame] } ∧
        ∀ rest, d12_dd_capture (e :: rest) this = d12_dd_capture rest t) ∧
      (∀ x, pointerBlock e { releaseHeldFrame this with release := true } = some x →
        capturePass e this = some (PassExit.retry x.1))) := by
  constructor
  · intro evs this t rest hret
    obtain ⟨pre, e, this1, hevs, hpre, hlast⟩ := capture_last_pass evs this _ t rest hret
    obtain ⟨hcache, hevents⟩ := retryPasses_events pre this this1 hpre
    obtain ⟨hhr, hpt, _, hl1, i, hi, hcur, hready, _, hfv, _, hsig, hrel⟩ :=
      capturePass_exit_ok e this1 t hlast
    refine ⟨pre, e, this1, i, hevs, hpre, hevents, hhr, hpt, hl1, hi, hcur, hready, hfv,
      fun hlt => ?_, ?_, hsig, hrel⟩
    · rw [hfv, Nat.mod_eq_of_lt hlt]
      exact ⟨rfl, Nat.succ_pos _⟩
    · obtain ⟨_, _, _, _, hslots⟩ := getCache_frame e.convert e.res.srcTex
        { releaseHeldFrame this1 with release := true }
      obtain ⟨r1, _, _⟩ := releaseHeldFrame_frame this1
      rcases hslots i with ⟨hsame, _⟩ | ⟨hzero, _, _⟩
      · left
        rw [hfv]
        have hsame' : ((passLookup e this1).2.2.cache i).fenceValue =
            ((releaseHeldFrame this1).cache i).fenceValue := hsame
        rw [hsame', r1, hcache]
      · right
        rw [hfv]
        have hzero' : ((passLookup e this1).2.2.cache i).fenceValue = 0 := hzero
        rw [hzero']
        rfl
  · intro e this hhr hpt
    have heq := capturePass_no_image e this hhr hpt
    refine ⟨fun r t h => ?_, ?_, fun t h => ?_, fun x hx => ?_⟩
    · rw [heq] at h
      cases hpb : pointerBlock e { releaseHeldFrame this with release := true } with
      | none =>
        rw [hpb] at h
        cases h
      | some x =>
        rw [hpb] at h
        cases h
    · rw [d12_dd_capture, heq]
      cases hpb : pointerBlock e { releaseHeldFrame this with release := true } with
      | none => rfl
      | some x => rfl
    · obtain ⟨_, _, hrel⟩ := capturePass_retry_event e this t h
      refine ⟨hrel, ?_, fun rest => ?_⟩
      · unfold releaseHeldFrame
        rw [if_pos hrel]
      · rw [d12_dd_capture, h]
    · rw [heq, hx]
      rfl

/-- C11 (amended), worked instance: the capture of a new image of surface A by
`cachedA`, whose slot 0 holds surface A with fence value 5. -/
theorem capture_ok_real_image_witness :
    d12_dd_capture [imageEvent surfaceA goodImport] cachedA =
      some (CAPTURE_RESULT_OK, cachedAfterHit, []) ∧
    cachedAfterHit.release = true ∧
    ∃ i, cachedAfterHit.current = some i ∧ (cachedAfterHit.cache i).ready = true :=
  ⟨rfl,
    match capture_ok_real_image.1 [imageEvent surfaceA goodImport] cachedA cachedAfterHit []
        rfl with
    | ⟨_, _, _, i, _, _, _, _, _, _, _, hcur, hready, _, _, _, _, hrel⟩ =>
      ⟨hrel, i, hcur, hready⟩⟩

/-- C4: for every native status, `d12_dd_hResultToCaptureResult` answers OK
exactly for `S_OK`, TIMEOUT exactly for the wait timeout, REINIT exactly for
abandoned-wait or access-lost, and ERROR exactly for every other status. -/
theorem hResultToCaptureResult_classes (status : HRESULT) :
    (d12_dd_hResultToCaptureResult status = CAPTURE_RESULT_OK ↔ status = S_OK) ∧
    (d12_dd_hResultToCaptureResult status = CAPTURE_RESULT_TIMEOUT ↔
      status = DXGI_ERROR_WAIT_TIMEOUT) ∧
    (d12_dd_hResultToCaptureResult status = CAPTURE_RESULT_REINIT ↔
      (status = WAIT_ABANDONED ∨ status = DXGI_ERROR_ACCESS_LOST)) ∧
    (d12_dd_hResultToCaptureResult status = CAPTURE_RESULT_ERROR ↔
      (status ≠ S_OK ∧ status ≠ DXGI_ERROR_WAIT_TIMEOUT ∧
        status ≠ WAIT_ABANDONED ∧ status ≠ DXGI_ERROR_ACCESS_LOST)) := by
  unfold d12_dd_hResultToCaptureResult S_OK DXGI_ERROR_WAIT_TIMEOUT WAIT_ABANDONED
    DXGI_ERROR_ACCESS_LOST
  split_ifs with h1 h2 h3
  · subst h1; simp
  · subst h2; simp
  · rcases h3 with h3 | h3 <;> subst h3 <;> simp
  · simp only [reduceCtorEq, false_iff, true_iff, ne_eq]
    unfold HRESULT at *
    omega

end LookingGlass
